import Mathlib

/-!
# GPIO driver of blinky-arm (`MCAL/GPIO/GPIO.c`)

A shallow embedding of the driver over an explicit register file.  Registers are
32-bit words kept as natural numbers below `2 ^ 32`; every register write reduces
its result modulo `2 ^ 32`.  Each C function that writes registers becomes a function
from the register file to a status code and a new register file.  A failed `assert`
and the missing return value of `GPIO_Init` on a null pointer are reported as a
`Fault`.
-/

namespace Blinky

/-! ## Types and constants of `GPIO.h` / `GPIO_private.h` -/

/-- Status codes of type `en_GPIO_error_t` that `GPIO.c` returns. -/
inductive en_GPIO_error_t
  | GPIO_STATUS_SUCCESS
  | GPIO_STATUS_CLOCK_FAILED
  | GPIO_STATUS_SET_DIRECTION_FAILED
  | GPIO_STATUS_INVALID_PIN_DIR
  deriving DecidableEq, Repr

open en_GPIO_error_t

/-- Modelled from the spec: `GPIO.h` is not under src/.  Port identifier A of the six
ports A..F; the enumerators are numbered in order. -/
def PORT_A : Nat := 0

/-- Modelled from the spec: port identifier B (`GPIO.h` is not under src/). -/
def PORT_B : Nat := 1

/-- Modelled from the spec: port identifier C (`GPIO.h` is not under src/). -/
def PORT_C : Nat := 2

/-- Modelled from the spec: port identifier D (`GPIO.h` is not under src/). -/
def PORT_D : Nat := 3

/-- Modelled from the spec: port identifier E (`GPIO.h` is not under src/). -/
def PORT_E : Nat := 4

/-- Modelled from the spec: port identifier F (`GPIO.h` is not under src/). -/
def PORT_F : Nat := 5

/-- Modelled from the spec: direction `INPUT` of the closed enumeration
`en_GPIO_pinDir_t` (`GPIO.h` is not under src/). -/
def INPUT : Nat := 0

/-- Modelled from the spec: direction `OUTPUT` of `en_GPIO_pinDir_t`. -/
def OUTPUT : Nat := 1

/-- Modelled from the spec: drive current 2 mA of `en_GPIO_driveCurrent_t`. -/
def DRIVE_2mA : Nat := 0

/-- Modelled from the spec: drive current 4 mA of `en_GPIO_driveCurrent_t`. -/
def DRIVE_4mA : Nat := 1

/-- Modelled from the spec: drive current 8 mA of `en_GPIO_driveCurrent_t`. -/
def DRIVE_8mA : Nat := 2

/-- Modelled from the spec: pull mode `PULL_UP` of `en_GPIO_pull_t`. -/
def PULL_UP : Nat := 0

/-- Modelled from the spec: pull mode `PULL_DOWN` of `en_GPIO_pull_t`. -/
def PULL_DOWN : Nat := 1

/-- Modelled from the spec: pull mode `OPEN_DRAIN` of `en_GPIO_pull_t`. -/
def OPEN_DRAIN : Nat := 2

/-- Modelled from the spec: pin level `HIGH` (`GPIO.h` is not under src/). -/
def HIGH : Nat := 1

/-- Modelled from the spec: pin level `LOW` (`GPIO.h` is not under src/). -/
def LOW : Nat := 0

/-- Modelled from the spec: the bit macro `SET_BIT` is not under src/; "set bit N" is
OR with `(1 << N)`, on a 32-bit register. -/
def SET_BIT (reg bit : Nat) : Nat :=
  (reg ||| (1 <<< bit)) % 2 ^ 32

/-- Modelled from the spec: the bit macro `CLR_BIT` is not under src/; "clear bit N"
is AND with `~(1 << N)`, the complement taken on 32 bits. -/
def CLR_BIT (reg bit : Nat) : Nat :=
  (reg &&& (2 ^ 32 - 1 - (1 <<< bit) % 2 ^ 32)) % 2 ^ 32

/-- Modelled from the spec: the bit macro `GET_BIT_STATUS` is not under src/; "read
bit N status" is `(register >> N) & 1`. -/
def GET_BIT_STATUS (reg bit : Nat) : Nat :=
  (reg >>> bit) &&& 1

/-- The pin configuration `st_GPIO_config_t`; the fields are C enumerations, which
hold any integer, the enumerators above being the valid ones. -/
structure st_GPIO_config_t where
  en_GPIO_port : Nat
  en_GPIO_pin : Nat
  en_GPIO_pinDir : Nat
  en_GPIO_driveCurrent : Nat
  en_GPIO_pull : Nat
  deriving DecidableEq, Repr

/-- Modelled from the spec: the register map of `GPIO_private.h` is not under src/.
One clock-gating register, and for every port identifier its own block of
direction, drive-strength, pull, slew-rate, digital-enable and data registers. -/
structure Regs where
  RCGCGPIO : Nat
  GPIODATA : Nat → Nat
  GPIODIR : Nat → Nat
  GPIODR2R : Nat → Nat
  GPIODR4R : Nat → Nat
  GPIODR8R : Nat → Nat
  GPIOODR : Nat → Nat
  GPIOPUR : Nat → Nat
  GPIOPDR : Nat → Nat
  GPIOSLR : Nat → Nat
  GPIODEN : Nat → Nat

/-- Every register of the file holds a 32-bit word. -/
def Regs.WF (s : Regs) : Prop :=
  Regs.RCGCGPIO s < 2 ^ 32 ∧
  ∀ p : Nat,
    s.GPIODATA p < 2 ^ 32 ∧ s.GPIODIR p < 2 ^ 32 ∧ s.GPIODR2R p < 2 ^ 32 ∧
    s.GPIODR4R p < 2 ^ 32 ∧ s.GPIODR8R p < 2 ^ 32 ∧ s.GPIOODR p < 2 ^ 32 ∧
    s.GPIOPUR p < 2 ^ 32 ∧ s.GPIOPDR p < 2 ^ 32 ∧ s.GPIOSLR p < 2 ^ 32 ∧
    s.GPIODEN p < 2 ^ 32

/-- Ways a call ends without a defined status code. -/
inductive Fault
  | assertion_failed
  | no_return_value
  deriving DecidableEq, Repr

/-- The `assert` of `assert.h`: nothing when `NDEBUG` is defined or the condition
holds, and the program is aborted otherwise. -/
def c_assert (NDEBUG : Bool) (cond : Bool) : Except Fault Unit :=
  if NDEBUG || cond then .ok () else .error Fault.assertion_failed

/-! ## The static configuration steps -/

/-- `GPIO_EnableClock` (GPIO.c:18-21). -/
def GPIO_EnableClock (en_GPIO_port : Nat) (s : Regs) : en_GPIO_error_t × Regs :=
  (GPIO_STATUS_SUCCESS, { s with RCGCGPIO := SET_BIT ( Regs.RCGCGPIO s) en_GPIO_port })

/-- `GPIO_SetDirection` (GPIO.c:30-40). -/
def GPIO_SetDirection (en_GPIO_port en_GPIO_pin en_GPIO_pinDir : Nat) (s : Regs) :
    en_GPIO_error_t × Regs :=
  if en_GPIO_pinDir = OUTPUT then
    (GPIO_STATUS_SUCCESS,
      { s with GPIODIR :=
          Function.update s.GPIODIR en_GPIO_port (SET_BIT (s.GPIODIR en_GPIO_port) en_GPIO_pin) })
  else if en_GPIO_pinDir = INPUT then
    (GPIO_STATUS_SUCCESS,
      { s with GPIODIR :=
          Function.update s.GPIODIR en_GPIO_port (CLR_BIT (s.GPIODIR en_GPIO_port) en_GPIO_pin) })
  else
    (GPIO_STATUS_SET_DIRECTION_FAILED, s)

/-- `GPIO_SetDriveCurrent` (GPIO.c:49-69); a `switch` without `default` does nothing
on a value that matches no case. -/
def GPIO_SetDriveCurrent (NDEBUG : Bool) (en_GPIO_port en_GPIO_pin en_GPIO_driveCurrent : Nat)
    (s : Regs) : Except Fault (en_GPIO_error_t × Regs) := do
  c_assert NDEBUG (en_GPIO_driveCurrent = DRIVE_2mA || en_GPIO_driveCurrent = DRIVE_4mA
    || en_GPIO_driveCurrent = DRIVE_8mA)
  let s1 : Regs :=
    if en_GPIO_driveCurrent = DRIVE_2mA then
      { s with
        GPIODR2R := Function.update s.GPIODR2R en_GPIO_port (SET_BIT (s.GPIODR2R en_GPIO_port) en_GPIO_pin)
        GPIODR4R := Function.update s.GPIODR4R en_GPIO_port (CLR_BIT (s.GPIODR4R en_GPIO_port) en_GPIO_pin)
        GPIODR8R := Function.update s.GPIODR8R en_GPIO_port (CLR_BIT (s.GPIODR8R en_GPIO_port) en_GPIO_pin) }
    else if en_GPIO_driveCurrent = DRIVE_4mA then
      { s with
        GPIODR2R := Function.update s.GPIODR2R en_GPIO_port (CLR_BIT (s.GPIODR2R en_GPIO_port) en_GPIO_pin)
        GPIODR4R := Function.update s.GPIODR4R en_GPIO_port (SET_BIT (s.GPIODR4R en_GPIO_port) en_GPIO_pin)
        GPIODR8R := Function.update s.GPIODR8R en_GPIO_port (CLR_BIT (s.GPIODR8R en_GPIO_port) en_GPIO_pin) }
    else if en_GPIO_driveCurrent = DRIVE_8mA then
      { s with
        GPIODR2R := Function.update s.GPIODR2R en_GPIO_port (CLR_BIT (s.GPIODR2R en_GPIO_port) en_GPIO_pin)
        GPIODR4R := Function.update s.GPIODR4R en_GPIO_port (CLR_BIT (s.GPIODR4R en_GPIO_port) en_GPIO_pin)
        GPIODR8R := Function.update s.GPIODR8R en_GPIO_port (SET_BIT (s.GPIODR8R en_GPIO_port) en_GPIO_pin) }
    else s
  return (GPIO_STATUS_SUCCESS, s1)

/-- `GPIO_SetPull` (GPIO.c:78-101). -/
def GPIO_SetPull (NDEBUG : Bool) (en_GPIO_port en_GPIO_pin en_GPIO_pull : Nat)
    (s : Regs) : Except Fault (en_GPIO_error_t × Regs) := do
  c_assert NDEBUG (en_GPIO_pull = PULL_UP || en_GPIO_pull = PULL_DOWN
    || en_GPIO_pull = OPEN_DRAIN)
  let s1 : Regs :=
    if en_GPIO_pull = PULL_UP then
      { s with
        GPIOPUR := Function.update s.GPIOPUR en_GPIO_port (SET_BIT (s.GPIOPUR en_GPIO_port) en_GPIO_pin)
        GPIOPDR := Function.update s.GPIOPDR en_GPIO_port (CLR_BIT (s.GPIOPDR en_GPIO_port) en_GPIO_pin)
        GPIOODR := Function.update s.GPIOODR en_GPIO_port (CLR_BIT (s.GPIOODR en_GPIO_port) en_GPIO_pin)
        GPIOSLR := Function.update s.GPIOSLR en_GPIO_port (CLR_BIT (s.GPIOSLR en_GPIO_port) en_GPIO_pin) }
    else if en_GPIO_pull = PULL_DOWN then
      { s with
        GPIOPUR := Function.update s.GPIOPUR en_GPIO_port (CLR_BIT (s.GPIOPUR en_GPIO_port) en_GPIO_pin)
        GPIOPDR := Function.update s.GPIOPDR en_GPIO_port (SET_BIT (s.GPIOPDR en_GPIO_port) en_GPIO_pin)
        GPIOODR := Function.update s.GPIOODR en_GPIO_port (CLR_BIT (s.GPIOODR en_GPIO_port) en_GPIO_pin)
        GPIOSLR := Function.update s.GPIOSLR en_GPIO_port (CLR_BIT (s.GPIOSLR en_GPIO_port) en_GPIO_pin) }
    else if en_GPIO_pull = OPEN_DRAIN then
      { s with
        GPIOPUR := Function.update s.GPIOPUR en_GPIO_port (CLR_BIT (s.GPIOPUR en_GPIO_port) en_GPIO_pin)
        GPIOPDR := Function.update s.GPIOPDR en_GPIO_port (CLR_BIT (s.GPIOPDR en_GPIO_port) en_GPIO_pin)
        GPIOODR := Function.update s.GPIOODR en_GPIO_port (SET_BIT (s.GPIOODR en_GPIO_port) en_GPIO_pin)
        GPIOSLR := Function.update s.GPIOSLR en_GPIO_port (CLR_BIT (s.GPIOSLR en_GPIO_port) en_GPIO_pin) }
    else s
  return (GPIO_STATUS_SUCCESS, s1)

/-- `GPIO_DigitalEnable` (GPIO.c:109-112). -/
def GPIO_DigitalEnable (en_GPIO_port en_GPIO_pin : Nat) (s : Regs) : en_GPIO_error_t × Regs :=
  (GPIO_STATUS_SUCCESS,
    { s with GPIODEN :=
        Function.update s.GPIODEN en_GPIO_port (SET_BIT (s.GPIODEN en_GPIO_port) en_GPIO_pin) })

/-! ## The public operations -/

/-- `GPIO_Init` (GPIO.c:119-160).  The pointer argument is `none` for `NULL`; on that
path the C function reaches its end without a `return`. -/
def GPIO_Init (NDEBUG : Bool) (ptr_st_GPIO_config : Option st_GPIO_config_t) (s : Regs) :
    Except Fault (en_GPIO_error_t × Regs) :=
  match ptr_st_GPIO_config with
  | some cfg => do
    let (e1, s1) := GPIO_EnableClock cfg.en_GPIO_port s
    if e1 ≠ GPIO_STATUS_SUCCESS then
      return (GPIO_STATUS_CLOCK_FAILED, s1)
    let (e2, s2) := GPIO_SetDirection cfg.en_GPIO_port cfg.en_GPIO_pin cfg.en_GPIO_pinDir s1
    if e2 ≠ GPIO_STATUS_SUCCESS then
      return (e2, s2)
    let (e3, s3) ← GPIO_SetDriveCurrent NDEBUG cfg.en_GPIO_port cfg.en_GPIO_pin
      cfg.en_GPIO_driveCurrent s2
    if e3 ≠ GPIO_STATUS_SUCCESS then
      return (e3, s3)
    let (e4, s4) ← GPIO_SetPull NDEBUG cfg.en_GPIO_port cfg.en_GPIO_pin cfg.en_GPIO_pull s3
    if e4 ≠ GPIO_STATUS_SUCCESS then
      return (e4, s4)
    let (e5, s5) := GPIO_DigitalEnable cfg.en_GPIO_port cfg.en_GPIO_pin s4
    if e5 ≠ GPIO_STATUS_SUCCESS then
      return (e5, s5)
    return (GPIO_STATUS_SUCCESS, s5)
  | none => .error Fault.no_return_value

/-- `GPIO_ReadPin` (GPIO.c:168-201).  `pinValue` is the byte that `ptr_pinValue`
points to before the call; the result holds the status, the register file and the
byte after the call.  The locals `portNum` and `pinNum` are of type `uint8`. -/
def GPIO_ReadPin (NDEBUG : Bool) (cfg : st_GPIO_config_t) (s : Regs) (pinValue : Nat) :
    Except Fault (en_GPIO_error_t × Regs × Nat) := do
  let portNum := cfg.en_GPIO_port % 256
  let pinNum := cfg.en_GPIO_pin % 256
  if cfg.en_GPIO_pinDir = INPUT ∨ cfg.en_GPIO_pinDir = OUTPUT then
    c_assert NDEBUG (portNum = PORT_A || portNum = PORT_B || portNum = PORT_C
      || portNum = PORT_D || portNum = PORT_E || portNum = PORT_F)
    let v : Nat :=
      if portNum = PORT_A then GET_BIT_STATUS (s.GPIODATA PORT_A) pinNum % 256
      else if portNum = PORT_B then GET_BIT_STATUS (s.GPIODATA PORT_B) pinNum % 256
      else if portNum = PORT_C then GET_BIT_STATUS (s.GPIODATA PORT_C) pinNum % 256
      else if portNum = PORT_D then GET_BIT_STATUS (s.GPIODATA PORT_D) pinNum % 256
      else if portNum = PORT_E then GET_BIT_STATUS (s.GPIODATA PORT_E) pinNum % 256
      else if portNum = PORT_F then GET_BIT_STATUS (s.GPIODATA PORT_F) pinNum % 256
      else pinValue
    return (GPIO_STATUS_SUCCESS, s, v)
  else
    return (GPIO_STATUS_INVALID_PIN_DIR, s, pinValue)

/-- The body of one `case` of the `switch` in `GPIO_WritePin` (GPIO.c:221-227): set
the bit for `HIGH`, clear it for `LOW`, nothing otherwise. -/
def writeCase (port pinNum pinValue : Nat) (s : Regs) : Regs :=
  if pinValue = HIGH then
    { s with GPIODATA := Function.update s.GPIODATA port (SET_BIT (s.GPIODATA port) pinNum) }
  else if pinValue = LOW then
    { s with GPIODATA := Function.update s.GPIODATA port (CLR_BIT (s.GPIODATA port) pinNum) }
  else s

/-- `GPIO_WritePin` (GPIO.c:209-279); `pinValue` is a `uint8` value. -/
def GPIO_WritePin (NDEBUG : Bool) (cfg : st_GPIO_config_t) (pinValue : Nat) (s : Regs) :
    Except Fault (en_GPIO_error_t × Regs) := do
  let portNum := cfg.en_GPIO_port % 256
  let pinNum := cfg.en_GPIO_pin % 256
  if cfg.en_GPIO_pinDir = OUTPUT then
    c_assert NDEBUG (portNum = PORT_A || portNum = PORT_B || portNum = PORT_C
      || portNum = PORT_D || portNum = PORT_E || portNum = PORT_F)
    let s1 : Regs :=
      if portNum = PORT_A then writeCase PORT_A pinNum pinValue s
      else if portNum = PORT_B then writeCase PORT_B pinNum pinValue s
      else if portNum = PORT_C then writeCase PORT_C pinNum pinValue s
      else if portNum = PORT_D then writeCase PORT_D pinNum pinValue s
      else if portNum = PORT_E then writeCase PORT_E pinNum pinValue s
      else if portNum = PORT_F then writeCase PORT_F pinNum pinValue s
      else s
    return (GPIO_STATUS_SUCCESS, s1)
  else
    return (GPIO_STATUS_INVALID_PIN_DIR, s)

/-- A register file with every register zero. -/
def zeroRegs : Regs :=
  { RCGCGPIO := 0, GPIODATA := fun _ => 0, GPIODIR := fun _ => 0, GPIODR2R := fun _ => 0,
    GPIODR4R := fun _ => 0, GPIODR8R := fun _ => 0, GPIOODR := fun _ => 0,
    GPIOPUR := fun _ => 0, GPIOPDR := fun _ => 0, GPIOSLR := fun _ => 0,
    GPIODEN := fun _ => 0 }

/-! ## Vocabulary of the specification -/

/-- The port identifier is one of the six ports A..F. -/
def validPort (p : Nat) : Prop :=
  p = PORT_A ∨ p = PORT_B ∨ p = PORT_C ∨ p = PORT_D ∨ p = PORT_E ∨ p = PORT_F

instance (p : Nat) : Decidable (validPort p) :=
  inferInstanceAs (Decidable (p = PORT_A ∨ p = PORT_B ∨ p = PORT_C ∨ p = PORT_D ∨ p = PORT_E
    ∨ p = PORT_F))

/-- The direction is one of the two enumerators. -/
def validDir (d : Nat) : Prop := d = INPUT ∨ d = OUTPUT

instance (d : Nat) : Decidable (validDir d) :=
  inferInstanceAs (Decidable (d = INPUT ∨ d = OUTPUT))

/-- The drive current is one of the three enumerators. -/
def validDrive (d : Nat) : Prop := d = DRIVE_2mA ∨ d = DRIVE_4mA ∨ d = DRIVE_8mA

instance (d : Nat) : Decidable (validDrive d) :=
  inferInstanceAs (Decidable (d = DRIVE_2mA ∨ d = DRIVE_4mA ∨ d = DRIVE_8mA))

/-- The pull mode is one of the three enumerators. -/
def validPull (m : Nat) : Prop := m = PULL_UP ∨ m = PULL_DOWN ∨ m = OPEN_DRAIN

instance (m : Nat) : Decidable (validPull m) :=
  inferInstanceAs (Decidable (m = PULL_UP ∨ m = PULL_DOWN ∨ m = OPEN_DRAIN))

/-- A valid configuration: port A..F, pin 0..7, and every enumeration field holding
one of its enumerators. -/
def ValidConfig (cfg : st_GPIO_config_t) : Prop :=
  validPort cfg.en_GPIO_port ∧ cfg.en_GPIO_pin ≤ 7 ∧ validDir cfg.en_GPIO_pinDir ∧
  validDrive cfg.en_GPIO_driveCurrent ∧ validPull cfg.en_GPIO_pull

instance (cfg : st_GPIO_config_t) : Decidable (ValidConfig cfg) :=
  inferInstanceAs (Decidable (validPort cfg.en_GPIO_port ∧ cfg.en_GPIO_pin ≤ 7 ∧
    validDir cfg.en_GPIO_pinDir ∧ validDrive cfg.en_GPIO_driveCurrent ∧
    validPull cfg.en_GPIO_pull))

/-- Exactly one of three bits is set. -/
def exactlyOne (a b c : Bool) : Bool :=
  (a && !b && !c) || (!a && b && !c) || (!a && !b && c)

/-- The configuration of the scenario: port B, pin 3, output, 8 mA, pull-up. -/
def cfgB3 : st_GPIO_config_t :=
  { en_GPIO_port := PORT_B, en_GPIO_pin := 3, en_GPIO_pinDir := OUTPUT,
    en_GPIO_driveCurrent := DRIVE_8mA, en_GPIO_pull := PULL_UP }

/-- The frame of a write to bit `N` of the data register of port `P`: every other bit
of that register, the data registers of all other ports and every non-data register
are as before. -/
def dataFrame (s s1 : Regs) (P N : Nat) : Prop :=
  (∀ i : Nat, i < 32 → i ≠ N → (s1.GPIODATA P).testBit i = (s.GPIODATA P).testBit i) ∧
  (∀ q : Nat, q ≠ P → s1.GPIODATA q = s.GPIODATA q) ∧
  Regs.RCGCGPIO s1 = Regs.RCGCGPIO s ∧ s1.GPIODIR = s.GPIODIR ∧
  s1.GPIODR2R = s.GPIODR2R ∧ s1.GPIODR4R = s.GPIODR4R ∧ s1.GPIODR8R = s.GPIODR8R ∧
  s1.GPIOODR = s.GPIOODR ∧ s1.GPIOPUR = s.GPIOPUR ∧ s1.GPIOPDR = s.GPIOPDR ∧
  s1.GPIOSLR = s.GPIOSLR ∧ s1.GPIODEN = s.GPIODEN

/-- A register file in use: clocks of ports A and F on, every pin on 2 mA, and data
`0xA5` on port C, `0x11` on port F. -/
def sampleRegs : Regs :=
  { RCGCGPIO := 0x21
    GPIODATA := fun p => if p = PORT_C then 0xA5 else if p = PORT_F then 0x11 else 0
    GPIODIR := fun p => if p = PORT_F then 0x0E else 0
    GPIODR2R := fun _ => 0xFF
    GPIODR4R := fun _ => 0
    GPIODR8R := fun _ => 0
    GPIOODR := fun _ => 0
    GPIOPUR := fun p => if p = PORT_F then 0x11 else 0
    GPIOPDR := fun _ => 0
    GPIOSLR := fun _ => 0
    GPIODEN := fun p => if p = PORT_F then 0x1F else 0 }

/-- An output pin: port F, pin 1, 2 mA, pull-down. -/
def cfgF1 : st_GPIO_config_t :=
  { en_GPIO_port := PORT_F, en_GPIO_pin := 1, en_GPIO_pinDir := OUTPUT,
    en_GPIO_driveCurrent := DRIVE_2mA, en_GPIO_pull := PULL_DOWN }

/-- An input pin: port C, pin 5, 4 mA, pull-up. -/
def cfgC5 : st_GPIO_config_t :=
  { en_GPIO_port := PORT_C, en_GPIO_pin := 5, en_GPIO_pinDir := INPUT,
    en_GPIO_driveCurrent := DRIVE_4mA, en_GPIO_pull := PULL_UP }

/-- A configuration whose direction field holds the invalid value 7: port D, pin 2,
8 mA, open drain. -/
def cfgBadDir : st_GPIO_config_t :=
  { en_GPIO_port := PORT_D, en_GPIO_pin := 2, en_GPIO_pinDir := 7,
    en_GPIO_driveCurrent := DRIVE_8mA, en_GPIO_pull := OPEN_DRAIN }

/-! ## Normal forms of the configuration steps

On valid arguments each step writes a fixed set of bits; the definitions below name
the register file a step leaves, and the lemmas `GPIO_SetDirection_valid`,
`GPIO_SetDriveCurrent_valid_eq`, `GPIO_SetPull_valid_eq` and `GPIO_Init_valid` prove
that the C functions compute exactly these. -/

/-- Write one bit of a register: `SET_BIT` when `b` holds, `CLR_BIT` otherwise. -/
def putBit (b : Bool) (reg n : Nat) : Nat :=
  if b then SET_BIT reg n else CLR_BIT reg n

/-- The register file after the direction step on a valid direction. -/
def dirRegs (p n d : Nat) (s : Regs) : Regs :=
  { s with GPIODIR := Function.update s.GPIODIR p (putBit (d = OUTPUT) (s.GPIODIR p) n) }

/-- The register file after the drive-current step on a valid drive current. -/
def driveRegs (p n d : Nat) (s : Regs) : Regs :=
  { s with
    GPIODR2R := Function.update s.GPIODR2R p (putBit (d = DRIVE_2mA) (s.GPIODR2R p) n)
    GPIODR4R := Function.update s.GPIODR4R p (putBit (d = DRIVE_4mA) (s.GPIODR4R p) n)
    GPIODR8R := Function.update s.GPIODR8R p (putBit (d = DRIVE_8mA) (s.GPIODR8R p) n) }

/-- The register file after the pull step on a valid pull mode. -/
def pullRegs (p n m : Nat) (s : Regs) : Regs :=
  { s with
    GPIOPUR := Function.update s.GPIOPUR p (putBit (m = PULL_UP) (s.GPIOPUR p) n)
    GPIOPDR := Function.update s.GPIOPDR p (putBit (m = PULL_DOWN) (s.GPIOPDR p) n)
    GPIOODR := Function.update s.GPIOODR p (putBit (m = OPEN_DRAIN) (s.GPIOODR p) n)
    GPIOSLR := Function.update s.GPIOSLR p (putBit false (s.GPIOSLR p) n) }

/-- The register file after the five steps of `GPIO_Init` on a valid configuration. -/
def initRegs (cfg : st_GPIO_config_t) (s : Regs) : Regs :=
  (GPIO_DigitalEnable cfg.en_GPIO_port cfg.en_GPIO_pin
    (pullRegs cfg.en_GPIO_port cfg.en_GPIO_pin cfg.en_GPIO_pull
      (driveRegs cfg.en_GPIO_port cfg.en_GPIO_pin cfg.en_GPIO_driveCurrent
        (dirRegs cfg.en_GPIO_port cfg.en_GPIO_pin cfg.en_GPIO_pinDir
          (GPIO_EnableClock cfg.en_GPIO_port s).2)))).2

/-! ## Invariants and frames -/

/-- The exclusivity invariants of the data model: every pin 0..7 of every port A..F has
exactly one of its three drive-strength bits set and exactly one of its pull-up,
pull-down and open-drain bits set. -/
def exclusive (s : Regs) : Prop :=
  ∀ p n : Nat, validPort p → n ≤ 7 →
    exactlyOne ((s.GPIODR2R p).testBit n) ((s.GPIODR4R p).testBit n)
      ((s.GPIODR8R p).testBit n) = true ∧
    exactlyOne ((s.GPIOPUR p).testBit n) ((s.GPIOPDR p).testBit n)
      ((s.GPIOODR p).testBit n) = true

/-- The frame of `GPIO_Init` on pin `N` of port `P`: in the direction, drive-strength,
pull, open-drain, slew-rate and digital-enable registers of port `P` every bit other
than bit `N` is as before; the registers of every other port are as before; every data
register is as before; the clock-gating register is as before except for bit `P`. -/
def initFrame (s s1 : Regs) (P N : Nat) : Prop :=
  (∀ i : Nat, i < 32 → i ≠ N →
    (s1.GPIODIR P).testBit i = (s.GPIODIR P).testBit i ∧
    (s1.GPIODR2R P).testBit i = (s.GPIODR2R P).testBit i ∧
    (s1.GPIODR4R P).testBit i = (s.GPIODR4R P).testBit i ∧
    (s1.GPIODR8R P).testBit i = (s.GPIODR8R P).testBit i ∧
    (s1.GPIOPUR P).testBit i = (s.GPIOPUR P).testBit i ∧
    (s1.GPIOPDR P).testBit i = (s.GPIOPDR P).testBit i ∧
    (s1.GPIOODR P).testBit i = (s.GPIOODR P).testBit i ∧
    (s1.GPIOSLR P).testBit i = (s.GPIOSLR P).testBit i ∧
    (s1.GPIODEN P).testBit i = (s.GPIODEN P).testBit i) ∧
  (∀ q : Nat, q ≠ P →
    s1.GPIODIR q = s.GPIODIR q ∧ s1.GPIODR2R q = s.GPIODR2R q ∧
    s1.GPIODR4R q = s.GPIODR4R q ∧ s1.GPIODR8R q = s.GPIODR8R q ∧
    s1.GPIOPUR q = s.GPIOPUR q ∧ s1.GPIOPDR q = s.GPIOPDR q ∧
    s1.GPIOODR q = s.GPIOODR q ∧ s1.GPIOSLR q = s.GPIOSLR q ∧
    s1.GPIODEN q = s.GPIODEN q) ∧
  s1.GPIODATA = s.GPIODATA ∧
  (∀ i : Nat, i < 32 → i ≠ P →
    ( Regs.RCGCGPIO s1).testBit i = ( Regs.RCGCGPIO s).testBit i)

/-- A register file that satisfies the exclusivity invariants: every pin on 2 mA and
pull-up, data `0x3C` on port B. -/
def exclusiveRegs : Regs :=
  { RCGCGPIO := 0x02
    GPIODATA := fun p => if p = PORT_B then 0x3C else 0
    GPIODIR := fun p => if p = PORT_B then 0x0F else 0
    GPIODR2R := fun _ => 0xFF
    GPIODR4R := fun _ => 0
    GPIODR8R := fun _ => 0
    GPIOODR := fun _ => 0
    GPIOPUR := fun _ => 0xFF
    GPIOPDR := fun _ => 0
    GPIOSLR := fun _ => 0
    GPIODEN := fun p => if p = PORT_B then 0xFF else 0 }

/-- The scenario pin configured the other way: port B, pin 3, input, 4 mA, open
drain. -/
def cfgB3in : st_GPIO_config_t :=
  { en_GPIO_port := PORT_B, en_GPIO_pin := 3, en_GPIO_pinDir := INPUT,
    en_GPIO_driveCurrent := DRIVE_4mA, en_GPIO_pull := OPEN_DRAIN }

/-- Another pin of port B: pin 6, input, 2 mA, pull-down. -/
def cfgB6 : st_GPIO_config_t :=
  { en_GPIO_port := PORT_B, en_GPIO_pin := 6, en_GPIO_pinDir := INPUT,
    en_GPIO_driveCurrent := DRIVE_2mA, en_GPIO_pull := PULL_DOWN }

/-! ## Bit-level facts about the register macros -/

theorem SET_BIT_lt (r n : Nat) : SET_BIT r n < 2 ^ 32 :=
  Nat.mod_lt _ (by decide)

theorem CLR_BIT_lt (r n : Nat) : CLR_BIT r n < 2 ^ 32 :=
  Nat.mod_lt _ (by decide)

theorem testBit_SET_BIT (r n i : Nat) :
    (SET_BIT r n).testBit i = (decide (i < 32) && (r.testBit i || decide (n = i))) := by
  unfold SET_BIT
  rw [Nat.testBit_mod_two_pow, Nat.testBit_or, Nat.one_shiftLeft, Nat.testBit_two_pow]

theorem testBit_CLR_BIT (r n i : Nat) :
    (CLR_BIT r n).testBit i = (decide (i < 32) && (r.testBit i && !decide (n = i))) := by
  unfold CLR_BIT
  have hx : (1 <<< n) % 2 ^ 32 < 2 ^ 32 := Nat.mod_lt _ (by decide)
  have hsub : 2 ^ 32 - 1 - (1 <<< n) % 2 ^ 32 = 2 ^ 32 - ((1 <<< n) % 2 ^ 32 + 1) := by omega
  rw [hsub, Nat.testBit_mod_two_pow, Nat.testBit_and, Nat.testBit_two_pow_sub_succ hx,
    Nat.testBit_mod_two_pow, Nat.one_shiftLeft, Nat.testBit_two_pow]
  by_cases h1 : i < 32 <;> by_cases h2 : n = i <;> simp [h1, h2]

theorem testBit_of_lt_word {r : Nat} (hr : r < 2 ^ 32) {i : Nat} (hi : 32 ≤ i) :
    r.testBit i = false :=
  Nat.testBit_lt_two_pow (Nat.lt_of_lt_of_le hr (Nat.pow_le_pow_right (by decide) hi))

theorem SET_BIT_SET_BIT (r n : Nat) : SET_BIT (SET_BIT r n) n = SET_BIT r n := by
  apply Nat.eq_of_testBit_eq
  intro i
  simp only [testBit_SET_BIT]
  by_cases h1 : i < 32 <;> by_cases h2 : n = i <;> simp [h1, h2]

theorem CLR_BIT_CLR_BIT (r n : Nat) : CLR_BIT (CLR_BIT r n) n = CLR_BIT r n := by
  apply Nat.eq_of_testBit_eq
  intro i
  simp only [testBit_CLR_BIT]
  by_cases h1 : i < 32 <;> by_cases h2 : n = i <;> simp [h1, h2]

theorem GET_BIT_STATUS_eq (r n : Nat) :
    GET_BIT_STATUS r n = if r.testBit n then 1 else 0 := by
  unfold GET_BIT_STATUS
  rw [Nat.and_one_is_mod, Nat.testBit, Nat.one_and_eq_mod_two]
  rcases Nat.mod_two_eq_zero_or_one (r >>> n) with h | h <;> simp [h]

/-! ## The steps of the pipeline -/

theorem GPIO_SetDirection_fst (p n d : Nat) (s : Regs) :
    (GPIO_SetDirection p n d s).1
      = if d = OUTPUT ∨ d = INPUT then GPIO_STATUS_SUCCESS
        else GPIO_STATUS_SET_DIRECTION_FAILED := by
  unfold GPIO_SetDirection
  by_cases h1 : d = OUTPUT
  · simp [h1]
  · by_cases h2 : d = INPUT
    · rw [if_neg h1, if_pos h2, if_pos (Or.inr h2)]
    · rw [if_neg h1, if_neg h2, if_neg (by tauto)]

theorem GPIO_EnableClock_fst (p : Nat) (s : Regs) :
    (GPIO_EnableClock p s).1 = GPIO_STATUS_SUCCESS := rfl

theorem GPIO_DigitalEnable_fst (p n : Nat) (s : Regs) :
    (GPIO_DigitalEnable p n s).1 = GPIO_STATUS_SUCCESS := rfl

theorem GPIO_SetDirection_invalid (p n d : Nat) (s : Regs) (h1 : d ≠ INPUT) (h2 : d ≠ OUTPUT) :
    GPIO_SetDirection p n d s = (GPIO_STATUS_SET_DIRECTION_FAILED, s) := by
  simp [GPIO_SetDirection, h1, h2]

theorem GPIO_SetDriveCurrent_cases (NDEBUG : Bool) (p n d : Nat) (s : Regs) :
    (∃ s1 : Regs, GPIO_SetDriveCurrent NDEBUG p n d s = .ok (GPIO_STATUS_SUCCESS, s1)) ∨
    GPIO_SetDriveCurrent NDEBUG p n d s = .error Fault.assertion_failed := by
  unfold GPIO_SetDriveCurrent c_assert
  split
  · exact Or.inl ⟨_, rfl⟩
  · exact Or.inr rfl

theorem GPIO_SetPull_cases (NDEBUG : Bool) (p n m : Nat) (s : Regs) :
    (∃ s1 : Regs, GPIO_SetPull NDEBUG p n m s = .ok (GPIO_STATUS_SUCCESS, s1)) ∨
    GPIO_SetPull NDEBUG p n m s = .error Fault.assertion_failed := by
  unfold GPIO_SetPull c_assert
  split
  · exact Or.inl ⟨_, rfl⟩
  · exact Or.inr rfl

/-- The pipeline of `GPIO_Init` on a non-null configuration, with the status tests
resolved: the clock step and the digital-enable step always succeed, and the drive
and pull steps succeed whenever they return. -/
theorem GPIO_Init_some (NDEBUG : Bool) (cfg : st_GPIO_config_t) (s : Regs) :
    GPIO_Init NDEBUG (some cfg) s =
      if cfg.en_GPIO_pinDir = OUTPUT ∨ cfg.en_GPIO_pinDir = INPUT then
        (GPIO_SetDriveCurrent NDEBUG cfg.en_GPIO_port cfg.en_GPIO_pin cfg.en_GPIO_driveCurrent
          (GPIO_SetDirection cfg.en_GPIO_port cfg.en_GPIO_pin cfg.en_GPIO_pinDir
            (GPIO_EnableClock cfg.en_GPIO_port s).2).2).bind fun r3 =>
        (GPIO_SetPull NDEBUG cfg.en_GPIO_port cfg.en_GPIO_pin cfg.en_GPIO_pull r3.2).bind
          fun r4 =>
        .ok (GPIO_STATUS_SUCCESS,
          (GPIO_DigitalEnable cfg.en_GPIO_port cfg.en_GPIO_pin r4.2).2)
      else
        .ok (GPIO_STATUS_SET_DIRECTION_FAILED, (GPIO_EnableClock cfg.en_GPIO_port s).2) := by
  have hfst := GPIO_SetDirection_fst cfg.en_GPIO_port cfg.en_GPIO_pin cfg.en_GPIO_pinDir
    (GPIO_EnableClock cfg.en_GPIO_port s).2
  by_cases hd : cfg.en_GPIO_pinDir = OUTPUT ∨ cfg.en_GPIO_pinDir = INPUT
  · rw [if_pos hd] at hfst ⊢
    generalize hD : GPIO_SetDirection cfg.en_GPIO_port cfg.en_GPIO_pin cfg.en_GPIO_pinDir
      (GPIO_EnableClock cfg.en_GPIO_port s).2 = rD at hfst
    obtain ⟨eD, sD⟩ := rD
    simp only at hfst
    subst hfst
    rcases GPIO_SetDriveCurrent_cases NDEBUG cfg.en_GPIO_port cfg.en_GPIO_pin
        cfg.en_GPIO_driveCurrent sD with ⟨s3, h3⟩ | h3
    · rcases GPIO_SetPull_cases NDEBUG cfg.en_GPIO_port cfg.en_GPIO_pin
          cfg.en_GPIO_pull s3 with ⟨s4, h4⟩ | h4
      · simp [GPIO_Init, GPIO_EnableClock_fst, GPIO_DigitalEnable_fst, bind, Except.bind, pure,
          Except.pure, hD, h3, h4]
      · simp [GPIO_Init, GPIO_EnableClock_fst, GPIO_DigitalEnable_fst, bind, Except.bind, pure,
          Except.pure, hD, h3, h4]
    · simp [GPIO_Init, GPIO_EnableClock_fst, bind, Except.bind, pure, Except.pure, hD, h3]
  · rw [if_neg hd]
    have h1 : cfg.en_GPIO_pinDir ≠ INPUT := fun h => hd (Or.inr h)
    have h2 : cfg.en_GPIO_pinDir ≠ OUTPUT := fun h => hd (Or.inl h)
    simp [GPIO_Init, GPIO_EnableClock_fst, bind, Except.bind, pure, Except.pure,
      GPIO_SetDirection_invalid _ _ _ _ h1 h2]


theorem GPIO_SetDriveCurrent_valid (NDEBUG : Bool) (p n d : Nat) (s : Regs)
    (hd : validDrive d) :
    ∃ s1 : Regs, GPIO_SetDriveCurrent NDEBUG p n d s = .ok (GPIO_STATUS_SUCCESS, s1) := by
  rcases GPIO_SetDriveCurrent_cases NDEBUG p n d s with h | h
  · exact h
  · exfalso
    rcases hd with rfl | rfl | rfl <;> cases NDEBUG <;>
      simp [GPIO_SetDriveCurrent, c_assert, bind, Except.bind, pure, Except.pure, DRIVE_2mA,
        DRIVE_4mA, DRIVE_8mA] at h

theorem GPIO_SetPull_valid (NDEBUG : Bool) (p n m : Nat) (s : Regs) (hm : validPull m) :
    ∃ s1 : Regs, GPIO_SetPull NDEBUG p n m s = .ok (GPIO_STATUS_SUCCESS, s1) := by
  rcases GPIO_SetPull_cases NDEBUG p n m s with h | h
  · exact h
  · exfalso
    rcases hm with rfl | rfl | rfl <;> cases NDEBUG <;>
      simp [GPIO_SetPull, c_assert, bind, Except.bind, pure, Except.pure, PULL_UP, PULL_DOWN,
        OPEN_DRAIN] at h

theorem GPIO_Init_status_cases (NDEBUG : Bool) (ptr : Option st_GPIO_config_t) (s : Regs) :
    (∃ s1 : Regs, GPIO_Init NDEBUG ptr s = .ok (GPIO_STATUS_SUCCESS, s1)) ∨
    (∃ s1 : Regs, GPIO_Init NDEBUG ptr s = .ok (GPIO_STATUS_SET_DIRECTION_FAILED, s1)) ∨
    (∃ f : Fault, GPIO_Init NDEBUG ptr s = .error f) := by
  cases ptr with
  | none => exact Or.inr (Or.inr ⟨_, rfl⟩)
  | some cfg =>
    rw [GPIO_Init_some]
    split
    · rcases GPIO_SetDriveCurrent_cases NDEBUG cfg.en_GPIO_port cfg.en_GPIO_pin
        cfg.en_GPIO_driveCurrent (GPIO_SetDirection cfg.en_GPIO_port cfg.en_GPIO_pin
          cfg.en_GPIO_pinDir (GPIO_EnableClock cfg.en_GPIO_port s).2).2 with ⟨s3, h3⟩ | h3
      · rcases GPIO_SetPull_cases NDEBUG cfg.en_GPIO_port cfg.en_GPIO_pin
          cfg.en_GPIO_pull s3 with ⟨s4, h4⟩ | h4
        · exact Or.inl ⟨_, by rw [h3, Except.bind, h4, Except.bind]⟩
        · exact Or.inr (Or.inr ⟨_, by rw [h3, Except.bind, h4, Except.bind]⟩)
      · exact Or.inr (Or.inr ⟨_, by rw [h3, Except.bind]⟩)
    · exact Or.inr (Or.inl ⟨_, rfl⟩)

/-! ## `GPIO_Init` on a valid configuration -/

/-- C1: for every register state and every valid configuration, `GPIO_Init` returns
SUCCESS, and in the resulting state exactly one of DR2R, DR4R, DR8R has the pin's bit
set, exactly one of PUR, PDR, ODR has the pin's bit set, and the pin's digital-enable
bit is set. -/
theorem GPIO_Init_exactly_one (NDEBUG : Bool) (s : Regs) (cfg : st_GPIO_config_t)
    (hv : ValidConfig cfg) :
    ∃ s1 : Regs, GPIO_Init NDEBUG (some cfg) s = .ok (GPIO_STATUS_SUCCESS, s1) ∧
      exactlyOne ((s1.GPIODR2R cfg.en_GPIO_port).testBit cfg.en_GPIO_pin)
        ((s1.GPIODR4R cfg.en_GPIO_port).testBit cfg.en_GPIO_pin)
        ((s1.GPIODR8R cfg.en_GPIO_port).testBit cfg.en_GPIO_pin) = true ∧
      exactlyOne ((s1.GPIOPUR cfg.en_GPIO_port).testBit cfg.en_GPIO_pin)
        ((s1.GPIOPDR cfg.en_GPIO_port).testBit cfg.en_GPIO_pin)
        ((s1.GPIOODR cfg.en_GPIO_port).testBit cfg.en_GPIO_pin) = true ∧
      (s1.GPIODEN cfg.en_GPIO_port).testBit cfg.en_GPIO_pin = true := by
  obtain ⟨port, pin, dir, drive, pull⟩ := cfg
  obtain ⟨-, hpin, hdir, hdrive, hpull⟩ := hv
  simp only at hpin hdir hdrive hpull
  have hp : pin < 32 := by omega
  rcases hdir with rfl | rfl <;> rcases hdrive with rfl | rfl | rfl <;>
    rcases hpull with rfl | rfl | rfl <;>
    simp [GPIO_Init, GPIO_EnableClock, GPIO_SetDirection, GPIO_SetDriveCurrent, GPIO_SetPull,
      GPIO_DigitalEnable, c_assert, bind, Except.bind, pure, Except.pure, exactlyOne,
      testBit_SET_BIT, testBit_CLR_BIT, hp, INPUT, OUTPUT, DRIVE_2mA, DRIVE_4mA, DRIVE_8mA,
      PULL_UP, PULL_DOWN, OPEN_DRAIN]

/-- Witness of C1 on the scenario configuration (port B, pin 3) and the all-zero
register file. -/
theorem GPIO_Init_exactly_one_witness :
    ValidConfig cfgB3 ∧
    ∃ s1 : Regs, GPIO_Init false (some cfgB3) zeroRegs = .ok (GPIO_STATUS_SUCCESS, s1) ∧
      exactlyOne ((s1.GPIODR2R PORT_B).testBit 3) ((s1.GPIODR4R PORT_B).testBit 3)
        ((s1.GPIODR8R PORT_B).testBit 3) = true ∧
      exactlyOne ((s1.GPIOPUR PORT_B).testBit 3) ((s1.GPIOPDR PORT_B).testBit 3)
        ((s1.GPIOODR PORT_B).testBit 3) = true ∧
      (s1.GPIODEN PORT_B).testBit 3 = true :=
  ⟨by decide, GPIO_Init_exactly_one false zeroRegs cfgB3 (by decide)⟩

/-- C2: for every register state and every valid configuration, `GPIO_Init` returns
SUCCESS and leaves the configured pin's bits exactly as the configuration selects:
the port's clock-gating bit is 1; the direction bit is 1 for OUTPUT and 0 for INPUT;
the selected drive-strength bit is 1 and the other two are 0; the selected one of
pull-up, pull-down, open-drain is 1 and the other two are 0; the slew-rate bit is 0;
the digital-enable bit is 1. -/
theorem GPIO_Init_pin_bits (NDEBUG : Bool) (s : Regs) (cfg : st_GPIO_config_t)
    (hv : ValidConfig cfg) :
    ∃ s1 : Regs, GPIO_Init NDEBUG (some cfg) s = .ok (GPIO_STATUS_SUCCESS, s1) ∧
      ( Regs.RCGCGPIO s1).testBit cfg.en_GPIO_port = true ∧
      (s1.GPIODIR cfg.en_GPIO_port).testBit cfg.en_GPIO_pin
        = decide (cfg.en_GPIO_pinDir = OUTPUT) ∧
      (s1.GPIODR2R cfg.en_GPIO_port).testBit cfg.en_GPIO_pin
        = decide (cfg.en_GPIO_driveCurrent = DRIVE_2mA) ∧
      (s1.GPIODR4R cfg.en_GPIO_port).testBit cfg.en_GPIO_pin
        = decide (cfg.en_GPIO_driveCurrent = DRIVE_4mA) ∧
      (s1.GPIODR8R cfg.en_GPIO_port).testBit cfg.en_GPIO_pin
        = decide (cfg.en_GPIO_driveCurrent = DRIVE_8mA) ∧
      (s1.GPIOPUR cfg.en_GPIO_port).testBit cfg.en_GPIO_pin
        = decide (cfg.en_GPIO_pull = PULL_UP) ∧
      (s1.GPIOPDR cfg.en_GPIO_port).testBit cfg.en_GPIO_pin
        = decide (cfg.en_GPIO_pull = PULL_DOWN) ∧
      (s1.GPIOODR cfg.en_GPIO_port).testBit cfg.en_GPIO_pin
        = decide (cfg.en_GPIO_pull = OPEN_DRAIN) ∧
      (s1.GPIOSLR cfg.en_GPIO_port).testBit cfg.en_GPIO_pin = false ∧
      (s1.GPIODEN cfg.en_GPIO_port).testBit cfg.en_GPIO_pin = true := by
  obtain ⟨port, pin, dir, drive, pull⟩ := cfg
  obtain ⟨hport, hpin, hdir, hdrive, hpull⟩ := hv
  simp only at hport hpin hdir hdrive hpull
  have hp : pin < 32 := by omega
  have hq : port < 32 := by
    rcases hport with h | h | h | h | h | h <;> subst h <;> decide
  rcases hdir with rfl | rfl <;> rcases hdrive with rfl | rfl | rfl <;>
    rcases hpull with rfl | rfl | rfl <;>
    simp [GPIO_Init, GPIO_EnableClock, GPIO_SetDirection, GPIO_SetDriveCurrent, GPIO_SetPull,
      GPIO_DigitalEnable, c_assert, bind, Except.bind, pure, Except.pure,
      testBit_SET_BIT, testBit_CLR_BIT, hp, hq, INPUT, OUTPUT, DRIVE_2mA, DRIVE_4mA, DRIVE_8mA,
      PULL_UP, PULL_DOWN, OPEN_DRAIN]

/-- Witness of C2, the scenario of the specification: Init(port=B, pin=3, dir=OUTPUT,
drive=8mA, pull=PULL_UP) returns SUCCESS with port B direction bit 3 = 1, DR8R bit 3 = 1,
DR2R and DR4R bit 3 = 0, PUR bit 3 = 1, PDR, ODR and SLR bit 3 = 0, DEN bit 3 = 1. -/
theorem GPIO_Init_pin_bits_witness :
    ValidConfig cfgB3 ∧
    ∃ s1 : Regs, GPIO_Init true (some cfgB3) zeroRegs = .ok (GPIO_STATUS_SUCCESS, s1) ∧
      ( Regs.RCGCGPIO s1).testBit PORT_B = true ∧
      (s1.GPIODIR PORT_B).testBit 3 = true ∧
      (s1.GPIODR2R PORT_B).testBit 3 = false ∧
      (s1.GPIODR4R PORT_B).testBit 3 = false ∧
      (s1.GPIODR8R PORT_B).testBit 3 = true ∧
      (s1.GPIOPUR PORT_B).testBit 3 = true ∧
      (s1.GPIOPDR PORT_B).testBit 3 = false ∧
      (s1.GPIOODR PORT_B).testBit 3 = false ∧
      (s1.GPIOSLR PORT_B).testBit 3 = false ∧
      (s1.GPIODEN PORT_B).testBit 3 = true :=
  ⟨by decide, GPIO_Init_pin_bits true zeroRegs cfgB3 (by decide)⟩

/-- C3: `GPIO_Init` is idempotent.  For every register state and every (non-null)
configuration, two calls in a row with the same configuration end with the same
status code and the same register file as one call (and when the first call is
aborted by an assertion, so is the pair). -/
theorem GPIO_Init_idempotent (NDEBUG : Bool) (s : Regs) (cfg : st_GPIO_config_t) :
    (GPIO_Init NDEBUG (some cfg) s >>= fun r => GPIO_Init NDEBUG (some cfg) r.2)
      = GPIO_Init NDEBUG (some cfg) s := by
  obtain ⟨port, pin, dir, drive, pull⟩ := cfg
  have hdir : dir = OUTPUT ∨ dir = INPUT ∨ (dir ≠ OUTPUT ∧ dir ≠ INPUT) := by tauto
  have hdrive : drive = DRIVE_2mA ∨ drive = DRIVE_4mA ∨ drive = DRIVE_8mA ∨
      (drive ≠ DRIVE_2mA ∧ drive ≠ DRIVE_4mA ∧ drive ≠ DRIVE_8mA) := by tauto
  have hpull : pull = PULL_UP ∨ pull = PULL_DOWN ∨ pull = OPEN_DRAIN ∨
      (pull ≠ PULL_UP ∧ pull ≠ PULL_DOWN ∧ pull ≠ OPEN_DRAIN) := by tauto
  rcases hdir with rfl | rfl | ⟨hd1, hd2⟩ <;>
    rcases hdrive with rfl | rfl | rfl | ⟨h2, h4, h8⟩ <;>
    rcases hpull with rfl | rfl | rfl | ⟨hu, hw, ho⟩ <;> cases NDEBUG <;>
    simp [GPIO_Init, GPIO_EnableClock, GPIO_SetDirection, GPIO_SetDriveCurrent, GPIO_SetPull,
      GPIO_DigitalEnable, c_assert, bind, Except.bind, pure, Except.pure,
      SET_BIT_SET_BIT, CLR_BIT_CLR_BIT, *] <;>
    simp [INPUT, OUTPUT, DRIVE_2mA, DRIVE_4mA, DRIVE_8mA, PULL_UP, PULL_DOWN, OPEN_DRAIN,
      SET_BIT_SET_BIT, CLR_BIT_CLR_BIT]

/-! ## The runtime accessors -/

/-- C4: write/read round trip.  For every register state and every configuration with
direction OUTPUT, a port A..F and a pin 0..7, `GPIO_WritePin` with HIGH followed by
`GPIO_ReadPin` returns SUCCESS from both calls and stores 1 in the output slot; with
LOW it stores 0. -/
theorem GPIO_WritePin_ReadPin_roundtrip (NDEBUG : Bool) (s : Regs) (cfg : st_GPIO_config_t)
    (slot : Nat) (hdir : cfg.en_GPIO_pinDir = OUTPUT) (hport : validPort cfg.en_GPIO_port)
    (hpin : cfg.en_GPIO_pin ≤ 7) :
    (∃ s1 : Regs, GPIO_WritePin NDEBUG cfg HIGH s = .ok (GPIO_STATUS_SUCCESS, s1) ∧
      GPIO_ReadPin NDEBUG cfg s1 slot = .ok (GPIO_STATUS_SUCCESS, s1, 1)) ∧
    (∃ s0 : Regs, GPIO_WritePin NDEBUG cfg LOW s = .ok (GPIO_STATUS_SUCCESS, s0) ∧
      GPIO_ReadPin NDEBUG cfg s0 slot = .ok (GPIO_STATUS_SUCCESS, s0, 0)) := by
  obtain ⟨port, pin, dir, drive, pull⟩ := cfg
  simp only at hdir hport hpin
  subst hdir
  have hp : pin < 32 := by omega
  have hm : pin % 256 = pin := Nat.mod_eq_of_lt (by omega)
  rcases hport with h | h | h | h | h | h <;> subst h <;>
    simp [GPIO_WritePin, GPIO_ReadPin, writeCase, c_assert, bind, Except.bind, pure,
      Except.pure, GET_BIT_STATUS_eq, testBit_SET_BIT, testBit_CLR_BIT, hp, hm,
      PORT_A, PORT_B, PORT_C, PORT_D, PORT_E, PORT_F, HIGH, LOW, INPUT, OUTPUT]

/-- Witness of C4 on output pin 1 of port F, the slot holding 9 before the read. -/
theorem GPIO_WritePin_ReadPin_roundtrip_witness :
    (∃ s1 : Regs, GPIO_WritePin false cfgF1 HIGH sampleRegs = .ok (GPIO_STATUS_SUCCESS, s1) ∧
      GPIO_ReadPin false cfgF1 s1 9 = .ok (GPIO_STATUS_SUCCESS, s1, 1)) ∧
    (∃ s0 : Regs, GPIO_WritePin false cfgF1 LOW sampleRegs = .ok (GPIO_STATUS_SUCCESS, s0) ∧
      GPIO_ReadPin false cfgF1 s0 9 = .ok (GPIO_STATUS_SUCCESS, s0, 0)) :=
  GPIO_WritePin_ReadPin_roundtrip false sampleRegs cfgF1 9 (by decide) (by decide) (by decide)

/-- C5: for every register state, every value and every configuration whose direction
is not OUTPUT, `GPIO_WritePin` returns INVALID_PIN_DIR and leaves the whole register
file, every data register included, unchanged. -/
theorem GPIO_WritePin_not_output (NDEBUG : Bool) (s : Regs) (cfg : st_GPIO_config_t)
    (pinValue : Nat) (hdir : cfg.en_GPIO_pinDir ≠ OUTPUT) :
    GPIO_WritePin NDEBUG cfg pinValue s = .ok (GPIO_STATUS_INVALID_PIN_DIR, s) := by
  simp [GPIO_WritePin, hdir, pure, Except.pure]

/-- Witness of C5: writing HIGH to the input pin 5 of port C. -/
theorem GPIO_WritePin_not_output_witness :
    cfgC5.en_GPIO_pinDir ≠ OUTPUT ∧
    GPIO_WritePin false cfgC5 HIGH sampleRegs
      = .ok (GPIO_STATUS_INVALID_PIN_DIR, sampleRegs) :=
  ⟨by decide, GPIO_WritePin_not_output false sampleRegs cfgC5 HIGH (by decide)⟩

/-- C6: for every register state and every configuration whose direction is neither
INPUT nor OUTPUT, `GPIO_ReadPin` returns INVALID_PIN_DIR, leaves the output slot
holding the value it had before the call, and changes no register. -/
theorem GPIO_ReadPin_invalid_dir (NDEBUG : Bool) (s : Regs) (cfg : st_GPIO_config_t)
    (slot : Nat) (hin : cfg.en_GPIO_pinDir ≠ INPUT) (hout : cfg.en_GPIO_pinDir ≠ OUTPUT) :
    GPIO_ReadPin NDEBUG cfg s slot = .ok (GPIO_STATUS_INVALID_PIN_DIR, s, slot) := by
  simp [GPIO_ReadPin, hin, hout, pure, Except.pure]

/-- Witness of C6: reading with the direction field 7, the slot holding 42. -/
theorem GPIO_ReadPin_invalid_dir_witness :
    cfgBadDir.en_GPIO_pinDir ≠ INPUT ∧ cfgBadDir.en_GPIO_pinDir ≠ OUTPUT ∧
    GPIO_ReadPin false cfgBadDir sampleRegs 42
      = .ok (GPIO_STATUS_INVALID_PIN_DIR, sampleRegs, 42) :=
  ⟨by decide, by decide,
    GPIO_ReadPin_invalid_dir false sampleRegs cfgBadDir 42 (by decide) (by decide)⟩

/-- C7: for every register state and every configuration with direction INPUT or
OUTPUT, a port P in A..F and a pin N in 0..7, `GPIO_ReadPin` returns SUCCESS and stores
in the output slot exactly `(DATA of port P >> N) & 1`, which is 0 or 1; the same
value is stored from any other register state (and any prior slot content) in which
bit N of the data register of port P is the same. -/
theorem GPIO_ReadPin_value (NDEBUG : Bool) (s : Regs) (cfg : st_GPIO_config_t)
    (slot : Nat) (hdir : validDir cfg.en_GPIO_pinDir) (hport : validPort cfg.en_GPIO_port)
    (hpin : cfg.en_GPIO_pin ≤ 7) :
    ∃ v : Nat, GPIO_ReadPin NDEBUG cfg s slot = .ok (GPIO_STATUS_SUCCESS, s, v) ∧
      v = (s.GPIODATA cfg.en_GPIO_port >>> cfg.en_GPIO_pin) &&& 1 ∧
      (v = 0 ∨ v = 1) ∧
      ∀ (s2 : Regs) (slot2 : Nat),
        (s2.GPIODATA cfg.en_GPIO_port).testBit cfg.en_GPIO_pin
          = (s.GPIODATA cfg.en_GPIO_port).testBit cfg.en_GPIO_pin →
        GPIO_ReadPin NDEBUG cfg s2 slot2 = .ok (GPIO_STATUS_SUCCESS, s2, v) := by
  obtain ⟨port, pin, dir, drive, pull⟩ := cfg
  simp only at hdir hport hpin
  have hm : pin % 256 = pin := Nat.mod_eq_of_lt (by omega)
  have hv : ∀ r : Nat, GET_BIT_STATUS r pin % 256 = GET_BIT_STATUS r pin := by
    intro r
    rw [GET_BIT_STATUS_eq]; split <;> rfl
  have key : ∀ (t : Regs) (sl : Nat),
      GPIO_ReadPin NDEBUG ⟨port, pin, dir, drive, pull⟩ t sl
        = .ok (GPIO_STATUS_SUCCESS, t, GET_BIT_STATUS (t.GPIODATA port) pin) := by
    intro t sl
    rcases hport with h | h | h | h | h | h <;> subst h <;>
      simp [GPIO_ReadPin, c_assert, bind, Except.bind, pure, Except.pure, hm, hv,
        (show dir = INPUT ∨ dir = OUTPUT from hdir),
        PORT_A, PORT_B, PORT_C, PORT_D, PORT_E, PORT_F]
  refine ⟨GET_BIT_STATUS (s.GPIODATA port) pin, key s slot, rfl, ?_, ?_⟩
  · rw [GET_BIT_STATUS_eq]; split <;> simp
  · intro s2 slot2 h
    rw [key s2 slot2, GET_BIT_STATUS_eq, GET_BIT_STATUS_eq, h]

/-- Witness of C7: reading input pin 5 of port C, whose data register holds `0xA5`. -/
theorem GPIO_ReadPin_value_witness :
    ∃ v : Nat, GPIO_ReadPin false cfgC5 sampleRegs 0 = .ok (GPIO_STATUS_SUCCESS, sampleRegs, v) ∧
      v = (sampleRegs.GPIODATA PORT_C >>> 5) &&& 1 ∧
      (v = 0 ∨ v = 1) ∧
      ∀ (s2 : Regs) (slot2 : Nat),
        (s2.GPIODATA PORT_C).testBit 5 = (sampleRegs.GPIODATA PORT_C).testBit 5 →
        GPIO_ReadPin false cfgC5 s2 slot2 = .ok (GPIO_STATUS_SUCCESS, s2, v) :=
  GPIO_ReadPin_value false sampleRegs cfgC5 0 (by decide) (by decide) (by decide)

/-- C8: `GPIO_WritePin` mutates exactly one bit.  For every register state and every
configuration with direction OUTPUT, a port P in A..F and a pin N in 0..7, the call
with HIGH returns SUCCESS and sets bit N of the data register of port P, the call with
LOW returns SUCCESS and clears it; every other bit of that register, the data registers
of the other ports and all non-data registers are unchanged. -/
theorem GPIO_WritePin_one_bit (NDEBUG : Bool) (s : Regs) (cfg : st_GPIO_config_t)
    (hdir : cfg.en_GPIO_pinDir = OUTPUT) (hport : validPort cfg.en_GPIO_port)
    (hpin : cfg.en_GPIO_pin ≤ 7) :
    (∃ s1 : Regs, GPIO_WritePin NDEBUG cfg HIGH s = .ok (GPIO_STATUS_SUCCESS, s1) ∧
      (s1.GPIODATA cfg.en_GPIO_port).testBit cfg.en_GPIO_pin = true ∧
      dataFrame s s1 cfg.en_GPIO_port cfg.en_GPIO_pin) ∧
    (∃ s0 : Regs, GPIO_WritePin NDEBUG cfg LOW s = .ok (GPIO_STATUS_SUCCESS, s0) ∧
      (s0.GPIODATA cfg.en_GPIO_port).testBit cfg.en_GPIO_pin = false ∧
      dataFrame s s0 cfg.en_GPIO_port cfg.en_GPIO_pin) := by
  obtain ⟨port, pin, dir, drive, pull⟩ := cfg
  simp only at hdir hport hpin
  subst hdir
  have hp : pin < 32 := by omega
  have hm : pin % 256 = pin := Nat.mod_eq_of_lt (by omega)
  have hne : ∀ i : Nat, i ≠ pin → ¬ pin = i := fun i h h2 => h h2.symm
  rcases hport with h | h | h | h | h | h <;> subst h <;>
    simp +contextual [GPIO_WritePin, writeCase, c_assert, bind, Except.bind, pure,
      Except.pure, dataFrame, testBit_SET_BIT, testBit_CLR_BIT, hp, hm, hne,
      PORT_A, PORT_B, PORT_C, PORT_D, PORT_E, PORT_F, HIGH, LOW, INPUT, OUTPUT]

/-- Witness of C8 on output pin 1 of port F. -/
theorem GPIO_WritePin_one_bit_witness :
    (∃ s1 : Regs, GPIO_WritePin true cfgF1 HIGH sampleRegs = .ok (GPIO_STATUS_SUCCESS, s1) ∧
      (s1.GPIODATA PORT_F).testBit 1 = true ∧ dataFrame sampleRegs s1 PORT_F 1) ∧
    (∃ s0 : Regs, GPIO_WritePin true cfgF1 LOW sampleRegs = .ok (GPIO_STATUS_SUCCESS, s0) ∧
      (s0.GPIODATA PORT_F).testBit 1 = false ∧ dataFrame sampleRegs s0 PORT_F 1) :=
  GPIO_WritePin_one_bit true sampleRegs cfgF1 (by decide) (by decide) (by decide)

/-! ## Status codes and failure of `GPIO_Init` -/

/-- C9: the status code of `GPIO_Init` is decided by the direction alone.  For every
register state and every configuration with a valid drive current and pull mode
(whatever the port and pin), `GPIO_Init` returns SUCCESS if and only if the direction
is INPUT or OUTPUT, returns SET_DIRECTION_FAILED otherwise, and for no configuration
and no register state at all returns CLOCK_FAILED. -/
theorem GPIO_Init_status_by_direction (NDEBUG : Bool) (s : Regs) (cfg : st_GPIO_config_t)
    (hdrive : validDrive cfg.en_GPIO_driveCurrent) (hpull : validPull cfg.en_GPIO_pull) :
    ((∃ s1 : Regs, GPIO_Init NDEBUG (some cfg) s = .ok (GPIO_STATUS_SUCCESS, s1))
        ↔ validDir cfg.en_GPIO_pinDir) ∧
    (¬ validDir cfg.en_GPIO_pinDir →
      ∃ s1 : Regs, GPIO_Init NDEBUG (some cfg) s
        = .ok (GPIO_STATUS_SET_DIRECTION_FAILED, s1)) ∧
    (∀ (nd : Bool) (c : st_GPIO_config_t) (t t1 : Regs),
      GPIO_Init nd (some c) t ≠ .ok (GPIO_STATUS_CLOCK_FAILED, t1)) := by
  have hfail : ¬ validDir cfg.en_GPIO_pinDir →
      GPIO_Init NDEBUG (some cfg) s
        = .ok (GPIO_STATUS_SET_DIRECTION_FAILED, (GPIO_EnableClock cfg.en_GPIO_port s).2) := by
    intro h
    rw [GPIO_Init_some, if_neg]
    intro h2
    exact h (h2.symm)
  refine ⟨⟨?_, ?_⟩, fun h => ⟨_, hfail h⟩, ?_⟩
  · rintro ⟨s1, h1⟩
    by_contra hnv
    rw [hfail hnv] at h1
    simp at h1
  · intro hv
    rw [GPIO_Init_some, if_pos hv.symm]
    obtain ⟨s3, h3⟩ := GPIO_SetDriveCurrent_valid NDEBUG cfg.en_GPIO_port cfg.en_GPIO_pin
      cfg.en_GPIO_driveCurrent (GPIO_SetDirection cfg.en_GPIO_port cfg.en_GPIO_pin
        cfg.en_GPIO_pinDir (GPIO_EnableClock cfg.en_GPIO_port s).2).2 hdrive
    obtain ⟨s4, h4⟩ := GPIO_SetPull_valid NDEBUG cfg.en_GPIO_port cfg.en_GPIO_pin
      cfg.en_GPIO_pull s3 hpull
    exact ⟨_, by rw [h3, Except.bind, h4, Except.bind]⟩
  · intro nd c t t1 h
    rcases GPIO_Init_status_cases nd (some c) t with ⟨u, hu⟩ | ⟨u, hu⟩ | ⟨f, hu⟩ <;>
      rw [hu] at h <;> simp at h

/-- Witness of C9 on the configuration with direction field 7 (port D, pin 2). -/
theorem GPIO_Init_status_by_direction_witness :
    ((∃ s1 : Regs, GPIO_Init false (some cfgBadDir) sampleRegs = .ok (GPIO_STATUS_SUCCESS, s1))
        ↔ validDir cfgBadDir.en_GPIO_pinDir) ∧
    (¬ validDir cfgBadDir.en_GPIO_pinDir →
      ∃ s1 : Regs, GPIO_Init false (some cfgBadDir) sampleRegs
        = .ok (GPIO_STATUS_SET_DIRECTION_FAILED, s1)) ∧
    (∀ (nd : Bool) (c : st_GPIO_config_t) (t t1 : Regs),
      GPIO_Init nd (some c) t ≠ .ok (GPIO_STATUS_CLOCK_FAILED, t1)) :=
  GPIO_Init_status_by_direction false sampleRegs cfgBadDir (by decide) (by decide)

/-- C10: `GPIO_Init` fails fast without rollback.  For every register state and every
configuration whose direction is neither INPUT nor OUTPUT, `GPIO_Init` returns the
status of the direction step, which is SET_DIRECTION_FAILED; the clock-gating bit of
the port (a bit of the 32-bit register, as for the ports A..F) is left set; and the
direction, drive-strength, pull-up, pull-down, open-drain, slew-rate, digital-enable
and data registers are exactly as before the call. -/
theorem GPIO_Init_fail_fast (NDEBUG : Bool) (s : Regs) (cfg : st_GPIO_config_t)
    (hin : cfg.en_GPIO_pinDir ≠ INPUT) (hout : cfg.en_GPIO_pinDir ≠ OUTPUT) :
    ∃ s1 : Regs,
      GPIO_Init NDEBUG (some cfg) s
        = .ok ((GPIO_SetDirection cfg.en_GPIO_port cfg.en_GPIO_pin cfg.en_GPIO_pinDir
            (GPIO_EnableClock cfg.en_GPIO_port s).2).1, s1) ∧
      (GPIO_SetDirection cfg.en_GPIO_port cfg.en_GPIO_pin cfg.en_GPIO_pinDir
        (GPIO_EnableClock cfg.en_GPIO_port s).2).1 = GPIO_STATUS_SET_DIRECTION_FAILED ∧
      (cfg.en_GPIO_port < 32 → ( Regs.RCGCGPIO s1).testBit cfg.en_GPIO_port = true) ∧
      s1.GPIODIR = s.GPIODIR ∧ s1.GPIODR2R = s.GPIODR2R ∧ s1.GPIODR4R = s.GPIODR4R ∧
      s1.GPIODR8R = s.GPIODR8R ∧ s1.GPIOPUR = s.GPIOPUR ∧ s1.GPIOPDR = s.GPIOPDR ∧
      s1.GPIOODR = s.GPIOODR ∧ s1.GPIOSLR = s.GPIOSLR ∧ s1.GPIODEN = s.GPIODEN ∧
      s1.GPIODATA = s.GPIODATA := by
  refine ⟨(GPIO_EnableClock cfg.en_GPIO_port s).2, ?_, ?_, ?_, rfl, rfl, rfl, rfl, rfl, rfl,
    rfl, rfl, rfl, rfl⟩
  · rw [GPIO_Init_some, if_neg (by tauto), GPIO_SetDirection_invalid _ _ _ _ hin hout]
  · rw [GPIO_SetDirection_invalid _ _ _ _ hin hout]
  · intro hp
    simp [GPIO_EnableClock, testBit_SET_BIT, hp]

/-- Witness of C10: direction field 7 on port D, whose clock was off before. -/
theorem GPIO_Init_fail_fast_witness :
    ( Regs.RCGCGPIO sampleRegs).testBit PORT_D = false ∧
    ∃ s1 : Regs,
      GPIO_Init false (some cfgBadDir) sampleRegs
        = .ok ((GPIO_SetDirection PORT_D 2 7 (GPIO_EnableClock PORT_D sampleRegs).2).1, s1) ∧
      (GPIO_SetDirection PORT_D 2 7 (GPIO_EnableClock PORT_D sampleRegs).2).1
        = GPIO_STATUS_SET_DIRECTION_FAILED ∧
      (PORT_D < 32 → ( Regs.RCGCGPIO s1).testBit PORT_D = true) ∧
      s1.GPIODIR = sampleRegs.GPIODIR ∧ s1.GPIODR2R = sampleRegs.GPIODR2R ∧
      s1.GPIODR4R = sampleRegs.GPIODR4R ∧ s1.GPIODR8R = sampleRegs.GPIODR8R ∧
      s1.GPIOPUR = sampleRegs.GPIOPUR ∧ s1.GPIOPDR = sampleRegs.GPIOPDR ∧
      s1.GPIOODR = sampleRegs.GPIOODR ∧ s1.GPIOSLR = sampleRegs.GPIOSLR ∧
      s1.GPIODEN = sampleRegs.GPIODEN ∧ s1.GPIODATA = sampleRegs.GPIODATA :=
  ⟨by decide, GPIO_Init_fail_fast false sampleRegs cfgBadDir (by decide) (by decide)⟩

/-! ## The steps in normal form -/

theorem testBit_putBit (b : Bool) (r n i : Nat) :
    (putBit b r n).testBit i = (decide (i < 32) && (if n = i then b else r.testBit i)) := by
  unfold putBit
  cases b <;> by_cases h : n = i <;> simp [testBit_SET_BIT, testBit_CLR_BIT, h]

theorem putBit_putBit (a b : Bool) (r n : Nat) :
    putBit b (putBit a r n) n = putBit b r n := by
  apply Nat.eq_of_testBit_eq
  intro i
  simp only [testBit_putBit]
  by_cases h1 : i < 32 <;> by_cases h2 : n = i <;> simp [h1, h2]

theorem putBit_comm (a b : Bool) (r n m : Nat) (h : n ≠ m) :
    putBit b (putBit a r n) m = putBit a (putBit b r m) n := by
  apply Nat.eq_of_testBit_eq
  intro i
  simp only [testBit_putBit]
  by_cases h1 : i < 32 <;> by_cases h2 : n = i <;> by_cases h3 : m = i <;> simp [h1, h2, h3]
  exact absurd (h2.trans h3.symm) h

theorem SET_BIT_comm (r n m : Nat) : SET_BIT (SET_BIT r n) m = SET_BIT (SET_BIT r m) n := by
  apply Nat.eq_of_testBit_eq
  intro i
  simp only [testBit_SET_BIT]
  by_cases h1 : i < 32 <;> by_cases h2 : n = i <;> by_cases h3 : m = i <;> simp [h1, h2, h3]

theorem GPIO_SetDirection_valid (p n d : Nat) (s : Regs) (hd : validDir d) :
    GPIO_SetDirection p n d s = (GPIO_STATUS_SUCCESS, dirRegs p n d s) := by
  rcases hd with rfl | rfl <;>
    simp [GPIO_SetDirection, dirRegs, putBit, INPUT, OUTPUT]

theorem GPIO_SetDriveCurrent_valid_eq (NDEBUG : Bool) (p n d : Nat) (s : Regs)
    (hd : validDrive d) :
    GPIO_SetDriveCurrent NDEBUG p n d s = .ok (GPIO_STATUS_SUCCESS, driveRegs p n d s) := by
  rcases hd with rfl | rfl | rfl <;>
    simp [GPIO_SetDriveCurrent, c_assert, bind, Except.bind, pure, Except.pure, driveRegs,
      putBit, DRIVE_2mA, DRIVE_4mA, DRIVE_8mA]

theorem GPIO_SetPull_valid_eq (NDEBUG : Bool) (p n m : Nat) (s : Regs) (hm : validPull m) :
    GPIO_SetPull NDEBUG p n m s = .ok (GPIO_STATUS_SUCCESS, pullRegs p n m s) := by
  rcases hm with rfl | rfl | rfl <;>
    simp [GPIO_SetPull, c_assert, bind, Except.bind, pure, Except.pure, pullRegs,
      putBit, PULL_UP, PULL_DOWN, OPEN_DRAIN]

theorem GPIO_Init_valid (NDEBUG : Bool) (cfg : st_GPIO_config_t) (s : Regs)
    (hdir : validDir cfg.en_GPIO_pinDir) (hdrive : validDrive cfg.en_GPIO_driveCurrent)
    (hpull : validPull cfg.en_GPIO_pull) :
    GPIO_Init NDEBUG (some cfg) s = .ok (GPIO_STATUS_SUCCESS, initRegs cfg s) := by
  rw [GPIO_Init_some, if_pos hdir.symm, GPIO_SetDirection_valid _ _ _ _ hdir,
    GPIO_SetDriveCurrent_valid_eq _ _ _ _ _ hdrive, Except.bind,
    GPIO_SetPull_valid_eq _ _ _ _ _ hpull, Except.bind]
  rfl

theorem initRegs_absorb (c1 c2 : st_GPIO_config_t) (s : Regs)
    (hport : c1.en_GPIO_port = c2.en_GPIO_port) (hpin : c1.en_GPIO_pin = c2.en_GPIO_pin) :
    initRegs c2 (initRegs c1 s) = initRegs c2 s := by
  obtain ⟨p1, n1, d1, i1, m1⟩ := c1
  obtain ⟨p2, n2, d2, i2, m2⟩ := c2
  simp only at hport hpin
  subst hport hpin
  simp [initRegs, dirRegs, driveRegs, pullRegs, GPIO_EnableClock, GPIO_DigitalEnable,
    putBit_putBit, SET_BIT_SET_BIT]

theorem update_putBit_comm (f : Nat → Nat) (p q n m : Nat) (a b : Bool)
    (h : p ≠ q ∨ n ≠ m) :
    Function.update (Function.update f p (putBit a (f p) n)) q
        (putBit b (Function.update f p (putBit a (f p) n) q) m)
      = Function.update (Function.update f q (putBit b (f q) m)) p
        (putBit a (Function.update f q (putBit b (f q) m) p) n) := by
  by_cases hpq : p = q
  · subst hpq
    have hnm : n ≠ m := by
      rcases h with h | h
      · exact absurd rfl h
      · exact h
    simp [putBit_comm _ _ _ _ _ hnm]
  · have hqp : q ≠ p := fun e => hpq e.symm
    simp [Function.update_noteq hpq, Function.update_noteq hqp,
      Function.update_comm hpq]

theorem initRegs_comm (c1 c2 : st_GPIO_config_t) (s : Regs)
    (h : c1.en_GPIO_port ≠ c2.en_GPIO_port ∨ c1.en_GPIO_pin ≠ c2.en_GPIO_pin) :
    initRegs c2 (initRegs c1 s) = initRegs c1 (initRegs c2 s) := by
  obtain ⟨p1, n1, d1, i1, m1⟩ := c1
  obtain ⟨p2, n2, d2, i2, m2⟩ := c2
  simp only at h
  have hs := fun f a b => update_putBit_comm f p1 p2 n1 n2 a b h
  have hS := fun f => hs f true true
  simp only [putBit, if_true] at hS
  simp only [initRegs, dirRegs, driveRegs, pullRegs, GPIO_EnableClock, GPIO_DigitalEnable,
    Regs.mk.injEq]
  refine ⟨SET_BIT_comm _ _ _, trivial, hs _ _ _, hs _ _ _, hs _ _ _, hs _ _ _, hs _ _ _,
    hs _ _ _, hs _ _ _, hs _ _ _, hS _⟩

theorem exclusive_exclusiveRegs : exclusive exclusiveRegs := by
  intro p n _ hn
  interval_cases n <;> simp only [exclusiveRegs] <;> exact ⟨by decide, by decide⟩

theorem exclusive_congr (s t : Regs) (h2 : t.GPIODR2R = s.GPIODR2R)
    (h4 : t.GPIODR4R = s.GPIODR4R) (h8 : t.GPIODR8R = s.GPIODR8R)
    (hu : t.GPIOPUR = s.GPIOPUR) (hd : t.GPIOPDR = s.GPIOPDR) (ho : t.GPIOODR = s.GPIOODR)
    (hs : exclusive s) : exclusive t := by
  intro p n hp hn
  rw [h2, h4, h8, hu, hd, ho]
  exact hs p n hp hn

theorem testBit_update_putBit (f : Nat → Nat) (P N p n : Nat) (b : Bool) (hn : n < 32) :
    ((Function.update f P (putBit b (f P) N)) p).testBit n
      = if p = P ∧ N = n then b else (f p).testBit n := by
  by_cases hp : p = P
  · subst hp
    by_cases hN : N = n <;> simp [testBit_putBit, hn, hN]
  · simp [Function.update_noteq hp, hp]

theorem exclusive_initRegs (cfg : st_GPIO_config_t) (s : Regs)
    (hdrive : validDrive cfg.en_GPIO_driveCurrent) (hpull : validPull cfg.en_GPIO_pull)
    (hs : exclusive s) : exclusive (initRegs cfg s) := by
  intro p n hp hn
  have hn32 : n < 32 := by omega
  have h := hs p n hp hn
  simp only [initRegs, dirRegs, driveRegs, pullRegs, GPIO_EnableClock, GPIO_DigitalEnable,
    testBit_update_putBit _ _ _ _ _ _ hn32]
  by_cases hc : p = cfg.en_GPIO_port ∧ cfg.en_GPIO_pin = n
  · simp only [if_pos hc]
    constructor
    · rcases hdrive with e | e | e <;> rw [e] <;> decide
    · rcases hpull with e | e | e <;> rw [e] <;> decide
  · simp only [if_neg hc]
    exact h

theorem writeCase_data (p n v : Nat) (s : Regs) :
    ∃ f : Nat → Nat, writeCase p n v s = { s with GPIODATA := f } := by
  unfold writeCase
  split
  · exact ⟨_, rfl⟩
  · split
    · exact ⟨_, rfl⟩
    · exact ⟨s.GPIODATA, rfl⟩

theorem GPIO_WritePin_cases (NDEBUG : Bool) (cfg : st_GPIO_config_t) (v : Nat) (s : Regs) :
    (∃ (e : en_GPIO_error_t) (f : Nat → Nat),
      GPIO_WritePin NDEBUG cfg v s = .ok (e, { s with GPIODATA := f })) ∨
    (GPIO_WritePin NDEBUG cfg v s = .error Fault.assertion_failed ∧ NDEBUG = false ∧
      ¬ validPort (cfg.en_GPIO_port % 256)) := by
  unfold GPIO_WritePin c_assert
  by_cases hd : cfg.en_GPIO_pinDir = OUTPUT
  · simp only [hd, if_true]
    split
    · left
      simp only [bind, Except.bind, pure, Except.pure]
      split_ifs
      all_goals first
        | (obtain ⟨f, hf⟩ := writeCase_data _ (cfg.en_GPIO_pin % 256) v s
           exact ⟨_, f, by rw [hf]⟩)
        | exact ⟨_, s.GPIODATA, rfl⟩
    · right
      rename_i h
      simp only [bind, Except.bind]
      refine ⟨trivial, ?_, ?_⟩
      · cases NDEBUG
        · rfl
        · simp at h
      · intro hv
        apply h
        unfold validPort at hv
        rcases hv with e | e | e | e | e | e <;> simp [e]
  · left
    refine ⟨GPIO_STATUS_INVALID_PIN_DIR, s.GPIODATA, ?_⟩
    simp [hd, pure, Except.pure]

theorem GPIO_ReadPin_cases (NDEBUG : Bool) (cfg : st_GPIO_config_t) (s : Regs) (slot : Nat) :
    (∃ (e : en_GPIO_error_t) (v : Nat), GPIO_ReadPin NDEBUG cfg s slot = .ok (e, s, v)) ∨
    (GPIO_ReadPin NDEBUG cfg s slot = .error Fault.assertion_failed ∧ NDEBUG = false ∧
      ¬ validPort (cfg.en_GPIO_port % 256)) := by
  unfold GPIO_ReadPin c_assert
  by_cases hd : cfg.en_GPIO_pinDir = INPUT ∨ cfg.en_GPIO_pinDir = OUTPUT
  · simp only [hd, if_true]
    split
    · left
      exact ⟨_, _, rfl⟩
    · right
      rename_i h
      simp only [bind, Except.bind]
      refine ⟨trivial, ?_, ?_⟩
      · cases NDEBUG
        · rfl
        · simp at h
      · intro hv
        apply h
        unfold validPort at hv
        rcases hv with e | e | e | e | e | e <;> simp [e]
  · left
    refine ⟨GPIO_STATUS_INVALID_PIN_DIR, slot, ?_⟩
    simp [hd, pure, Except.pure]

/-! ## An invalid write value -/

/-- C11: for every register state, every configuration with direction OUTPUT and a
port A..F, and every value that is neither HIGH nor LOW, `GPIO_WritePin` leaves the
whole register file unchanged and returns SUCCESS: no error is signalled. -/
theorem GPIO_WritePin_other_value (NDEBUG : Bool) (s : Regs) (cfg : st_GPIO_config_t)
    (pinValue : Nat) (hdir : cfg.en_GPIO_pinDir = OUTPUT) (hport : validPort cfg.en_GPIO_port)
    (hhigh : pinValue ≠ HIGH) (hlow : pinValue ≠ LOW) :
    GPIO_WritePin NDEBUG cfg pinValue s = .ok (GPIO_STATUS_SUCCESS, s) := by
  obtain ⟨port, pin, dir, drive, pull⟩ := cfg
  simp only at hdir hport
  subst hdir
  rcases hport with h | h | h | h | h | h <;> subst h <;>
    simp [GPIO_WritePin, writeCase, c_assert, bind, Except.bind, pure, Except.pure,
      hhigh, hlow, PORT_A, PORT_B, PORT_C, PORT_D, PORT_E, PORT_F]

/-- Witness of C11: writing the value 2 to output pin 1 of port F. -/
theorem GPIO_WritePin_other_value_witness :
    GPIO_WritePin false cfgF1 2 sampleRegs = .ok (GPIO_STATUS_SUCCESS, sampleRegs) :=
  GPIO_WritePin_other_value false sampleRegs cfgF1 2 (by decide) (by decide) (by decide)
    (by decide)

/-! ## Exclusivity of the drive-strength and pull selections -/

/-- C12: drive-current exclusivity regardless of history.  For every register state,
every port, every pin 0..7 and every drive current d of 2 mA, 4 mA, 8 mA,
`GPIO_SetDriveCurrent` returns SUCCESS and leaves the pin's bit set in the register
selected by d and cleared in the other two; in particular, setting 4 mA after 2 mA
clears the 2 mA bit and leaves only the 4 mA bit set. -/
theorem GPIO_SetDriveCurrent_exclusive (NDEBUG : Bool) (s : Regs) (port pin d : Nat)
    (hpin : pin ≤ 7) (hd : validDrive d) :
    (∃ s1 : Regs, GPIO_SetDriveCurrent NDEBUG port pin d s = .ok (GPIO_STATUS_SUCCESS, s1) ∧
      (s1.GPIODR2R port).testBit pin = decide (d = DRIVE_2mA) ∧
      (s1.GPIODR4R port).testBit pin = decide (d = DRIVE_4mA) ∧
      (s1.GPIODR8R port).testBit pin = decide (d = DRIVE_8mA)) ∧
    (∃ s2 s4 : Regs,
      GPIO_SetDriveCurrent NDEBUG port pin DRIVE_2mA s = .ok (GPIO_STATUS_SUCCESS, s2) ∧
      (s2.GPIODR2R port).testBit pin = true ∧
      GPIO_SetDriveCurrent NDEBUG port pin DRIVE_4mA s2 = .ok (GPIO_STATUS_SUCCESS, s4) ∧
      (s4.GPIODR2R port).testBit pin = false ∧
      (s4.GPIODR4R port).testBit pin = true ∧
      (s4.GPIODR8R port).testBit pin = false) := by
  have hp : pin < 32 := by omega
  refine ⟨⟨_, GPIO_SetDriveCurrent_valid_eq NDEBUG port pin d s hd, ?_⟩,
    ⟨_, _, GPIO_SetDriveCurrent_valid_eq NDEBUG port pin DRIVE_2mA s (Or.inl rfl), ?_,
      GPIO_SetDriveCurrent_valid_eq NDEBUG port pin DRIVE_4mA _ (Or.inr (Or.inl rfl)), ?_⟩⟩
  · simp [driveRegs, testBit_putBit, hp]
  · simp [driveRegs, testBit_putBit, hp]
  · simp [driveRegs, testBit_putBit, hp, DRIVE_2mA, DRIVE_4mA, DRIVE_8mA]

/-- Witness of C12: 8 mA on pin 4 of port F, where every pin was on 2 mA. -/
theorem GPIO_SetDriveCurrent_exclusive_witness :
    (sampleRegs.GPIODR2R PORT_F).testBit 4 = true ∧
    (∃ s1 : Regs,
      GPIO_SetDriveCurrent false PORT_F 4 DRIVE_8mA sampleRegs
        = .ok (GPIO_STATUS_SUCCESS, s1) ∧
      (s1.GPIODR2R PORT_F).testBit 4 = decide (DRIVE_8mA = DRIVE_2mA) ∧
      (s1.GPIODR4R PORT_F).testBit 4 = decide (DRIVE_8mA = DRIVE_4mA) ∧
      (s1.GPIODR8R PORT_F).testBit 4 = decide (DRIVE_8mA = DRIVE_8mA)) ∧
    (∃ s2 s4 : Regs,
      GPIO_SetDriveCurrent false PORT_F 4 DRIVE_2mA sampleRegs
        = .ok (GPIO_STATUS_SUCCESS, s2) ∧
      (s2.GPIODR2R PORT_F).testBit 4 = true ∧
      GPIO_SetDriveCurrent false PORT_F 4 DRIVE_4mA s2 = .ok (GPIO_STATUS_SUCCESS, s4) ∧
      (s4.GPIODR2R PORT_F).testBit 4 = false ∧
      (s4.GPIODR4R PORT_F).testBit 4 = true ∧
      (s4.GPIODR8R PORT_F).testBit 4 = false) :=
  ⟨by decide,
    GPIO_SetDriveCurrent_exclusive false sampleRegs PORT_F 4 DRIVE_8mA (by decide) (by decide)⟩

/-- C13: for every register state, every port, every pin 0..7 and every pull mode m of
PULL_UP, PULL_DOWN, OPEN_DRAIN, `GPIO_SetPull` returns SUCCESS, leaves the pin's bit set
in the register selected by m and cleared in the other two of pull-up, pull-down and
open-drain, and leaves the pin's slew-rate bit cleared, whatever those four bits were
before. -/
theorem GPIO_SetPull_exclusive (NDEBUG : Bool) (s : Regs) (port pin m : Nat)
    (hpin : pin ≤ 7) (hm : validPull m) :
    ∃ s1 : Regs, GPIO_SetPull NDEBUG port pin m s = .ok (GPIO_STATUS_SUCCESS, s1) ∧
      (s1.GPIOPUR port).testBit pin = decide (m = PULL_UP) ∧
      (s1.GPIOPDR port).testBit pin = decide (m = PULL_DOWN) ∧
      (s1.GPIOODR port).testBit pin = decide (m = OPEN_DRAIN) ∧
      (s1.GPIOSLR port).testBit pin = false := by
  have hp : pin < 32 := by omega
  refine ⟨_, GPIO_SetPull_valid_eq NDEBUG port pin m s hm, ?_⟩
  simp [pullRegs, testBit_putBit, hp]

/-- Witness of C13: pull-down on pin 4 of port F, which was pulled up before. -/
theorem GPIO_SetPull_exclusive_witness :
    (sampleRegs.GPIOPUR PORT_F).testBit 4 = true ∧
    ∃ s1 : Regs, GPIO_SetPull true PORT_F 4 PULL_DOWN sampleRegs
        = .ok (GPIO_STATUS_SUCCESS, s1) ∧
      (s1.GPIOPUR PORT_F).testBit 4 = decide (PULL_DOWN = PULL_UP) ∧
      (s1.GPIOPDR PORT_F).testBit 4 = decide (PULL_DOWN = PULL_DOWN) ∧
      (s1.GPIOODR PORT_F).testBit 4 = decide (PULL_DOWN = OPEN_DRAIN) ∧
      (s1.GPIOSLR PORT_F).testBit 4 = false :=
  ⟨by decide, GPIO_SetPull_exclusive true sampleRegs PORT_F 4 PULL_DOWN (by decide) (by decide)⟩

/-- C14: the exclusivity invariants are preserved by every public operation.  If every
pin 0..7 of every port A..F has exactly one of its drive-strength bits and exactly one
of its pull-up, pull-down and open-drain bits set, then the same holds after
`GPIO_Init` on any configuration with a valid drive current and pull mode (whatever
its port and pin, and whether it succeeds or fails on the direction), after any
`GPIO_WritePin` call and after any `GPIO_ReadPin` call; the only calls with no state
after them are those that the port assertion aborts in a build with assertions. -/
theorem exclusive_preserved (NDEBUG : Bool) (s : Regs) (hinv : exclusive s) :
    (∀ cfg : st_GPIO_config_t, validDrive cfg.en_GPIO_driveCurrent →
      validPull cfg.en_GPIO_pull →
      ∃ (e : en_GPIO_error_t) (s1 : Regs),
        GPIO_Init NDEBUG (some cfg) s = .ok (e, s1) ∧ exclusive s1) ∧
    (∀ (cfg : st_GPIO_config_t) (pinValue : Nat),
      (∃ (e : en_GPIO_error_t) (s1 : Regs),
        GPIO_WritePin NDEBUG cfg pinValue s = .ok (e, s1) ∧ exclusive s1) ∨
      (GPIO_WritePin NDEBUG cfg pinValue s = .error Fault.assertion_failed ∧
        NDEBUG = false ∧ ¬ validPort (cfg.en_GPIO_port % 256))) ∧
    (∀ (cfg : st_GPIO_config_t) (slot : Nat),
      (∃ (e : en_GPIO_error_t) (s1 : Regs) (v : Nat),
        GPIO_ReadPin NDEBUG cfg s slot = .ok (e, s1, v) ∧ exclusive s1) ∨
      (GPIO_ReadPin NDEBUG cfg s slot = .error Fault.assertion_failed ∧
        NDEBUG = false ∧ ¬ validPort (cfg.en_GPIO_port % 256))) := by
  refine ⟨?_, ?_, ?_⟩
  · intro cfg hdrive hpull
    by_cases hdir : validDir cfg.en_GPIO_pinDir
    · exact ⟨_, _, GPIO_Init_valid NDEBUG cfg s hdir hdrive hpull,
        exclusive_initRegs cfg s hdrive hpull hinv⟩
    · refine ⟨GPIO_STATUS_SET_DIRECTION_FAILED, (GPIO_EnableClock cfg.en_GPIO_port s).2, ?_,
        exclusive_congr s _ rfl rfl rfl rfl rfl rfl hinv⟩
      rw [GPIO_Init_some, if_neg (fun h => hdir h.symm)]
  · intro cfg v
    rcases GPIO_WritePin_cases NDEBUG cfg v s with ⟨e, f, h⟩ | h
    · exact Or.inl ⟨e, _, h, exclusive_congr s _ rfl rfl rfl rfl rfl rfl hinv⟩
    · exact Or.inr h
  · intro cfg slot
    rcases GPIO_ReadPin_cases NDEBUG cfg s slot with ⟨e, v, h⟩ | h
    · exact Or.inl ⟨e, s, v, h, hinv⟩
    · exact Or.inr h

/-- Witness of C14 on a register file with every pin on 2 mA and pull-up. -/
theorem exclusive_preserved_witness :
    exclusive exclusiveRegs ∧
    (∀ cfg : st_GPIO_config_t, validDrive cfg.en_GPIO_driveCurrent →
      validPull cfg.en_GPIO_pull →
      ∃ (e : en_GPIO_error_t) (s1 : Regs),
        GPIO_Init false (some cfg) exclusiveRegs = .ok (e, s1) ∧ exclusive s1) ∧
    (∀ (cfg : st_GPIO_config_t) (pinValue : Nat),
      (∃ (e : en_GPIO_error_t) (s1 : Regs),
        GPIO_WritePin false cfg pinValue exclusiveRegs = .ok (e, s1) ∧ exclusive s1) ∨
      (GPIO_WritePin false cfg pinValue exclusiveRegs = .error Fault.assertion_failed ∧
        false = false ∧ ¬ validPort (cfg.en_GPIO_port % 256))) ∧
    (∀ (cfg : st_GPIO_config_t) (slot : Nat),
      (∃ (e : en_GPIO_error_t) (s1 : Regs) (v : Nat),
        GPIO_ReadPin false cfg exclusiveRegs slot = .ok (e, s1, v) ∧ exclusive s1) ∨
      (GPIO_ReadPin false cfg exclusiveRegs slot = .error Fault.assertion_failed ∧
        false = false ∧ ¬ validPort (cfg.en_GPIO_port % 256))) :=
  ⟨exclusive_exclusiveRegs, exclusive_preserved false exclusiveRegs exclusive_exclusiveRegs⟩

/-! ## `GPIO_Init` and the other pins -/

/-- C15: `GPIO_Init` touches only the configured pin.  For every register state and
every valid configuration for pin N of port P, after `GPIO_Init` every bit other than
bit N of the direction, drive-strength, pull-up, pull-down, open-drain, slew-rate and
digital-enable registers of port P is unchanged, every register of every other port is
unchanged, every data register is unchanged, and the clock-gating register differs
from its previous value at most in bit P. -/
theorem GPIO_Init_frame (NDEBUG : Bool) (s : Regs) (cfg : st_GPIO_config_t)
    (hv : ValidConfig cfg) :
    ∃ s1 : Regs, GPIO_Init NDEBUG (some cfg) s = .ok (GPIO_STATUS_SUCCESS, s1) ∧
      initFrame s s1 cfg.en_GPIO_port cfg.en_GPIO_pin := by
  obtain ⟨-, -, hdir, hdrive, hpull⟩ := hv
  refine ⟨_, GPIO_Init_valid NDEBUG cfg s hdir hdrive hpull, ?_, ?_, rfl, ?_⟩
  · intro i hi hne
    have hne2 : ¬ cfg.en_GPIO_pin = i := fun e => hne e.symm
    simp [initRegs, dirRegs, driveRegs, pullRegs, GPIO_EnableClock, GPIO_DigitalEnable,
      testBit_putBit, testBit_SET_BIT, hi, hne2]
  · intro q hq
    simp [initRegs, dirRegs, driveRegs, pullRegs, GPIO_EnableClock, GPIO_DigitalEnable,
      Function.update_noteq hq]
  · intro i hi hne
    have hne2 : ¬ cfg.en_GPIO_port = i := fun e => hne e.symm
    simp [initRegs, dirRegs, driveRegs, pullRegs, GPIO_EnableClock, GPIO_DigitalEnable,
      testBit_SET_BIT, hi, hne2]

/-- Witness of C15 on output pin 1 of port F. -/
theorem GPIO_Init_frame_witness :
    ValidConfig cfgF1 ∧
    ∃ s1 : Regs, GPIO_Init false (some cfgF1) sampleRegs = .ok (GPIO_STATUS_SUCCESS, s1) ∧
      initFrame sampleRegs s1 PORT_F 1 :=
  ⟨by decide, GPIO_Init_frame false sampleRegs cfgF1 (by decide)⟩

/-- C16: the last configuration wins.  For every register state and every two valid
configurations c1 and c2 that name the same port and the same pin, `GPIO_Init` of c1
followed by `GPIO_Init` of c2 leaves exactly the register file that `GPIO_Init` of c2
alone leaves. -/
theorem GPIO_Init_last_wins (NDEBUG : Bool) (s : Regs) (c1 c2 : st_GPIO_config_t)
    (h1 : ValidConfig c1) (h2 : ValidConfig c2)
    (hport : c1.en_GPIO_port = c2.en_GPIO_port) (hpin : c1.en_GPIO_pin = c2.en_GPIO_pin) :
    ∃ s1 s2 : Regs,
      GPIO_Init NDEBUG (some c1) s = .ok (GPIO_STATUS_SUCCESS, s1) ∧
      GPIO_Init NDEBUG (some c2) s1 = .ok (GPIO_STATUS_SUCCESS, s2) ∧
      GPIO_Init NDEBUG (some c2) s = .ok (GPIO_STATUS_SUCCESS, s2) := by
  obtain ⟨-, -, hdir1, hdrive1, hpull1⟩ := h1
  obtain ⟨-, -, hdir2, hdrive2, hpull2⟩ := h2
  refine ⟨initRegs c1 s, initRegs c2 s, GPIO_Init_valid NDEBUG c1 s hdir1 hdrive1 hpull1, ?_,
    GPIO_Init_valid NDEBUG c2 s hdir2 hdrive2 hpull2⟩
  rw [GPIO_Init_valid NDEBUG c2 _ hdir2 hdrive2 hpull2, initRegs_absorb c1 c2 s hport hpin]

/-- Witness of C16: pin 3 of port B configured as input, 4 mA, open drain and then as
output, 8 mA, pull-up. -/
theorem GPIO_Init_last_wins_witness :
    ValidConfig cfgB3in ∧ ValidConfig cfgB3 ∧
    ∃ s1 s2 : Regs,
      GPIO_Init false (some cfgB3in) sampleRegs = .ok (GPIO_STATUS_SUCCESS, s1) ∧
      GPIO_Init false (some cfgB3) s1 = .ok (GPIO_STATUS_SUCCESS, s2) ∧
      GPIO_Init false (some cfgB3) sampleRegs = .ok (GPIO_STATUS_SUCCESS, s2) :=
  ⟨by decide, by decide,
    GPIO_Init_last_wins false sampleRegs cfgB3in cfgB3 (by decide) (by decide) rfl rfl⟩

/-- C17: initialisations of different pins commute.  For every register state and
every two valid configurations c1 and c2 that differ in the port or in the pin,
`GPIO_Init` of c1 followed by `GPIO_Init` of c2 leaves the same register file as
`GPIO_Init` of c2 followed by `GPIO_Init` of c1. -/
theorem GPIO_Init_commute (NDEBUG : Bool) (s : Regs) (c1 c2 : st_GPIO_config_t)
    (h1 : ValidConfig c1) (h2 : ValidConfig c2)
    (hne : c1.en_GPIO_port ≠ c2.en_GPIO_port ∨ c1.en_GPIO_pin ≠ c2.en_GPIO_pin) :
    ∃ sA sB sF : Regs,
      GPIO_Init NDEBUG (some c1) s = .ok (GPIO_STATUS_SUCCESS, sA) ∧
      GPIO_Init NDEBUG (some c2) sA = .ok (GPIO_STATUS_SUCCESS, sF) ∧
      GPIO_Init NDEBUG (some c2) s = .ok (GPIO_STATUS_SUCCESS, sB) ∧
      GPIO_Init NDEBUG (some c1) sB = .ok (GPIO_STATUS_SUCCESS, sF) := by
  obtain ⟨-, -, hdir1, hdrive1, hpull1⟩ := h1
  obtain ⟨-, -, hdir2, hdrive2, hpull2⟩ := h2
  refine ⟨initRegs c1 s, initRegs c2 s, initRegs c2 (initRegs c1 s),
    GPIO_Init_valid NDEBUG c1 s hdir1 hdrive1 hpull1,
    GPIO_Init_valid NDEBUG c2 _ hdir2 hdrive2 hpull2,
    GPIO_Init_valid NDEBUG c2 s hdir2 hdrive2 hpull2, ?_⟩
  rw [GPIO_Init_valid NDEBUG c1 _ hdir1 hdrive1 hpull1, initRegs_comm c1 c2 s hne]

/-- Witness of C17 on two pins of the same port: pins 3 and 6 of port B. -/
theorem GPIO_Init_commute_witness :
    ValidConfig cfgB3 ∧ ValidConfig cfgB6 ∧
    ∃ sA sB sF : Regs,
      GPIO_Init false (some cfgB3) sampleRegs = .ok (GPIO_STATUS_SUCCESS, sA) ∧
      GPIO_Init false (some cfgB6) sA = .ok (GPIO_STATUS_SUCCESS, sF) ∧
      GPIO_Init false (some cfgB6) sampleRegs = .ok (GPIO_STATUS_SUCCESS, sB) ∧
      GPIO_Init false (some cfgB3) sB = .ok (GPIO_STATUS_SUCCESS, sF) :=
  ⟨by decide, by decide,
    GPIO_Init_commute false sampleRegs cfgB3 cfgB6 (by decide) (by decide)
      (Or.inr (by decide))⟩

end Blinky
